import Mathlib

/-!
# Weather gateway (service-a) and resolver (service-b)

A shallow embedding of the two Go services of the repository and the proofs of
the properties stated about them.

* Go strings are modelled by `String`; the regular expression matcher reads a
  string rune by rune, which is the list of characters of the model.
* The response writer of `net/http` is a record of the header map, the status
  line (absent until the header is written), the bytes written so far, and the
  panic that stopped the handler, if a call on the writer raised one.
* The body of a response is a reader: the bytes the peer sends and the point
  where reading fails, if it fails before the end.
* Everything that lives outside the two source files (the network, the
  environment, the JSON codec, URL validation, float64 arithmetic, the span id
  generator) is a field of `Platform`, so every statement holds for all
  behaviours of those parts. The type of float64 values is a parameter `F`.
* A handler returns an `Outcome`: the response writer, the requests it handed
  to `client.Do`, and the span it started. The deferred `span.End()` and
  `resp.Body.Close()` change none of the three and are left out.
-/

set_option autoImplicit false

/-! ## Package `regexp`: the fragment used by `isValidZip` -/

namespace Go.regexp

/-- Abstract syntax of the regular expressions the services compile. The names
follow the operators of `regexp/syntax`: `OpBeginText`, `OpEndText`,
`OpCharClass` (one range of code points), `OpConcat` and `OpRepeat` with equal
minimum and maximum. -/
inductive Regexp where
  | beginText : Regexp
  | endText : Regexp
  | charClass (lo hi : Nat) : Regexp
  | concat (a b : Regexp) : Regexp
  | rep (r : Regexp) (n : Nat) : Regexp
  deriving Repr

/-- A matcher thread: the number of runes consumed so far and the runes that are
still ahead. -/
abbrev Thread := Nat × List Char

/-- All threads that survive matching `re` from thread `t`. Without the `m` flag
`^` holds only at offset zero and `$` only when no input is left; a character
class consumes one rune whose code point lies in the range. -/
def Regexp.step : Regexp → Thread → List Thread
  | .beginText, t => if t.1 = 0 then [t] else []
  | .endText, t => if t.2.isEmpty then [t] else []
  | .charClass lo hi, t =>
    match t.2 with
    | [] => []
    | c :: rest => if lo ≤ c.toNat ∧ c.toNat ≤ hi then [(t.1 + 1, rest)] else []
  | .concat a b, t => (a.step t).flatMap (fun u => b.step u)
  | .rep r n, t => Nat.iterate (fun ts => ts.flatMap (fun u => r.step u)) n [t]

/-- Unanchored search: try the expression at the current offset, then at every
later one. -/
def Regexp.search (re : Regexp) : Nat → List Char → Bool
  | pos, [] => !(re.step (pos, [])).isEmpty
  | pos, c :: rest => !(re.step (pos, c :: rest)).isEmpty || search re (pos + 1) rest

/-- The function `regexp.MatchString` applied to an already parsed pattern:
reports whether the string contains any match of the expression. -/
def MatchString (re : Regexp) (s : String) : Bool :=
  re.search 0 s.toList

/-- The pattern `\d`: Go restricts it to the ASCII digits `[0-9]`. -/
def perlDigit : Regexp := .charClass 0x30 0x39

/-- The parsed form of the pattern literal `^\d{8}$` that both services pass to
`regexp.MatchString`. -/
def zipPattern : Regexp :=
  .concat .beginText (.concat (.rep perlDigit 8) .endText)

end Go.regexp

/-! ## Packages `context` and `trace`: what a span start needs -/

namespace Go.trace

/-- The identifiers of a span: a 128-bit trace id and a 64-bit span id. -/
structure SpanContext where
  TraceID : Nat
  SpanID : Nat
  deriving DecidableEq, Repr

/-- A `context.Context` as far as the services use it: the span it carries. -/
structure Context where
  span : Option SpanContext := none
  deriving DecidableEq, Repr

/-- The context `context.Background()`: it carries no span. -/
def Background : Context := {}

/-- The ids the SDK generator draws for a span, looked up by the span name so
that every span of one request has a draw of its own: `NewIDs` for a root span
(trace id, span id), `NewSpanID` for a child of the given trace. -/
structure IDGenerator where
  NewIDs : String → Nat × Nat
  NewSpanID : String → Nat → Nat

/-- The call `tracer.Start(ctx, name)`: a child of the span in `ctx` keeps its
trace id; without a span in `ctx` a new trace starts. Returns the context that
carries the new span, and the span. -/
def Start (gen : IDGenerator) (ctx : Context) (spanName : String) : Context × SpanContext :=
  match ctx.span with
  | some parent =>
    let sc : SpanContext := ⟨parent.TraceID, gen.NewSpanID spanName parent.TraceID⟩
    (⟨some sc⟩, sc)
  | none =>
    let sc : SpanContext := ⟨(gen.NewIDs spanName).1, (gen.NewIDs spanName).2⟩
    (⟨some sc⟩, sc)

/-- The header keys, in canonical form, that the propagator installed by
`initTracer` (trace context and baggage) writes on injection and reads on
extraction. -/
def propagatorFields : List String := ["Traceparent", "Tracestate", "Baggage"]

end Go.trace

/-! ## Package `net/url`: request target and query values -/

namespace Go.url

/-- The function `strings.Cut` for a one-byte separator: the text before the
first separator and the text after it (all of it and nothing when there is no
separator). -/
def Cut (sep : Char) : List Char → List Char × List Char
  | [] => ([], [])
  | c :: cs => if c = sep then ([], cs) else ((c :: (Cut sep cs).1), (Cut sep cs).2)

/-- The pieces of a text between separators, as the loop of `ParseQuery` visits
them. -/
def Split (sep : Char) : List Char → List (List Char)
  | [] => [[]]
  | c :: cs =>
    if c = sep then [] :: Split sep cs
    else
      match Split sep cs with
      | [] => [[c]]
      | p :: ps => (c :: p) :: ps

/-- The value of a hexadecimal digit. -/
def unhex (c : Char) : Option Nat :=
  if '0' ≤ c ∧ c ≤ '9' then some (c.toNat - '0'.toNat)
  else if 'a' ≤ c ∧ c ≤ 'f' then some (c.toNat - 'a'.toNat + 10)
  else if 'A' ≤ c ∧ c ≤ 'F' then some (c.toNat - 'A'.toNat + 10)
  else none

/-- The function `url.QueryUnescape`: `%XY` becomes the byte `XY`, `+` becomes a
space, a `%` without two hexadecimal digits is an error. An escape above `%7F`
is one byte of a longer rune in Go; here it is the character of that code point,
in both readings a character outside ASCII. -/
def QueryUnescape : List Char → Option (List Char)
  | [] => some []
  | '%' :: a :: b :: rest =>
    match unhex a, unhex b, QueryUnescape rest with
    | some x, some y, some tail => some (Char.ofNat (16 * x + y) :: tail)
    | _, _, _ => none
  | '%' :: _ => none
  | '+' :: rest => (QueryUnescape rest).map (fun tail => ' ' :: tail)
  | c :: rest => (QueryUnescape rest).map (fun tail => c :: tail)

/-- One `key=value` piece of a query: skipped when it contains a semicolon, is
empty, or has a malformed escape. -/
def parsePair (piece : List Char) : Option (String × String) :=
  if piece.contains ';' then none
  else if piece.isEmpty then none
  else
    match QueryUnescape (Cut '=' piece).1, QueryUnescape (Cut '=' piece).2 with
    | some key, some value => some (String.mk key, String.mk value)
    | _, _ => none

/-- The values `url.ParseQuery` collects, in the order of the query; its error
result is dropped by `URL.Query`. -/
def ParseQuery (query : String) : List (String × String) :=
  (Split '&' query.toList).filterMap parsePair

/-- The method `Values.Get`: the first value stored under the key, or the empty
string. -/
def Get (v : List (String × String)) (key : String) : String :=
  (v.lookup key).getD ""

/-- The field `RawQuery` of a request target as the server parses it: the text
after the first question mark. -/
def RawQuery (target : String) : String :=
  String.mk (Cut '?' target.toList).2

/-- The method `URL.Query` on the URL of an incoming request. -/
def Query (target : String) : List (String × String) :=
  ParseQuery (RawQuery target)

/-- The target a client puts on the wire for a raw URL: `url.Parse` cuts the
fragment at the first `#` and the fragment is never sent. Scheme and authority
are left in place (the absolute form of a request target); the handlers read
the query only. -/
def RequestURI (rawURL : String) : String :=
  String.mk (Cut '#' rawURL.toList).1

end Go.url

/-! ## Package `io`: the body of a response as a reader -/

namespace Go.io

/-- The body of a response as the client hands it over, an `io.ReadCloser`.
`sent` is the body the peer sends. `failAfter = some n` says that reading
returns an error (the timeout of the client expires, the connection breaks)
once `n` characters have been read; with `none` reading ends at the end of the
body. -/
structure Reader where
  sent : String
  failAfter : Option Nat := none
  deriving DecidableEq, Repr

/-- The bytes that successive reads deliver before the reader reports the end
of the body or an error. -/
def Reader.delivered (b : Reader) : String :=
  match b.failAfter with
  | none => b.sent
  | some n => String.mk (b.sent.toList.take n)

end Go.io

/-! ## Package `net/http`: requests, responses, the response writer -/

namespace Go.http

/-- A header map with canonical keys. -/
abbrev Header := List (String × String)

/-- The method `Header.Del`. -/
def Header.Del (h : Header) (key : String) : Header :=
  h.filter (fun e => e.1 != key)

/-- The method `Header.Set`: replaces every value stored under the key. -/
def Header.Set (h : Header) (key value : String) : Header :=
  (key, value) :: Header.Del h key

/-- The method `Header.Get`: the first value under the key, or the empty string. -/
def Header.Get (h : Header) (key : String) : String :=
  (h.lookup key).getD ""

/-- A request: outbound as built by `NewRequestWithContext`, or inbound as
handed to a handler. `URL` is the raw URL of an outbound request and the
request target of an inbound one. -/
structure Request where
  Method : String
  URL : String
  Header : Header := []
  Body : String := ""
  ctx : Go.trace.Context := {}
  deriving DecidableEq, Repr

/-- The response `client.Do` returns: the status line and headers have been
read, the body is still to be read. The client accepts any three-digit status
code; for a status that allows no body (1xx, 204, 304) it hands over an empty
body. -/
structure Response where
  StatusCode : Nat
  Header : Header := []
  Body : Go.io.Reader
  deriving DecidableEq, Repr

/-- What the caller of a service receives: status, headers and the complete
body. -/
structure Answer where
  StatusCode : Nat
  Header : Header := []
  Body : String := ""
  deriving DecidableEq, Repr

/-- The state behind an `http.ResponseWriter`: the header map, the status (none
until the header is written), the body bytes written so far, and the message of
the panic a call on the writer raised (the handler stops there; no later call
has an effect). -/
structure ResponseWriter where
  header : Header := []
  status : Option Nat := none
  body : String := ""
  panicked : Option String := none
  deriving DecidableEq, Repr

/-- The writer the server hands to a handler. -/
def newWriter : ResponseWriter := {}

def StatusOK : Nat := 200
def StatusBadRequest : Nat := 400
def StatusNotFound : Nat := 404
def StatusMethodNotAllowed : Nat := 405
def StatusUnprocessableEntity : Nat := 422
def StatusInternalServerError : Nat := 500
def MethodPost : String := "POST"

/-- The method `WriteHeader` of the server. Once the header is written a
further call is ignored. A code below 100 or above 999 panics (`invalid
WriteHeader code`). A code from 100 to 199 other than 101 sends an
informational header and leaves the status open. Any other code fixes the
status. -/
def ResponseWriter.WriteHeader (w : ResponseWriter) (code : Nat) : ResponseWriter :=
  match w.panicked, w.status with
  | some _, _ => w
  | none, some _ => w
  | none, none =>
    if code < 100 ∨ 999 < code then { w with panicked := some "invalid WriteHeader code" }
    else if code ≤ 199 ∧ code ≠ 101 then w
    else { w with status := some code }

/-- The method `Write`: writes the header with status 200 when none was written
yet, then appends the bytes. -/
def ResponseWriter.Write (w : ResponseWriter) (p : String) : ResponseWriter :=
  match w.panicked with
  | some _ => w
  | none =>
    let w1 := w.WriteHeader StatusOK
    { w1 with body := w1.body ++ p }

/-- The function `http.Error`: plain-text content type, the status, and the
message followed by a line feed (`fmt.Fprintln`). -/
def Error (w : ResponseWriter) (error : String) (code : Nat) : ResponseWriter :=
  let h := ((Header.Del w.header "Content-Length").Set "Content-Type"
    "text/plain; charset=utf-8").Set "X-Content-Type-Options" "nosniff"
  let w1 : ResponseWriter := { w with header := h }
  (w1.WriteHeader code).Write (error ++ "\n")

/-- What the server sends once the handler has returned: a handler that wrote
nothing answers 200 with an empty body. -/
def ResponseWriter.finish (w : ResponseWriter) : Answer :=
  let w1 := w.WriteHeader StatusOK
  { StatusCode := w1.status.getD StatusOK, Header := w1.header, Body := w1.body }

/-- The function `http.NewRequestWithContext` with a nil body: fails when
`url.Parse` rejects the URL (decided by the platform), else returns a request
with an empty header map. -/
def NewRequestWithContext (validURL : String → Bool) (ctx : Go.trace.Context)
    (method url : String) : Except String Request :=
  if validURL url then
    .ok { Method := method, URL := url, Header := [], Body := "", ctx := ctx }
  else .error "parse error"

/-- The request as the receiving server hands it to its handler: the target
without the fragment, the headers of the request plus the two the transport
adds by default, and the context of the receiving process, which carries no
span of the sender. -/
def deliver (req : Request) : Request :=
  { Method := req.Method
    URL := Go.url.RequestURI req.URL
    Header := req.Header ++ [("User-Agent", "Go-http-client/1.1"), ("Accept-Encoding", "gzip")]
    Body := req.Body
    ctx := Go.trace.Background }

end Go.http

namespace Go.io

/-- The function `io.Copy(w, body)` with its result discarded: every chunk read
from the body is written to the writer, until the reader reports the end of the
body or an error; nothing is written when nothing is read. -/
def Copy (w : Go.http.ResponseWriter) (body : Reader) : Go.http.ResponseWriter :=
  if body.delivered = "" then w else w.Write body.delivered

end Go.io

/-! ## The shape of a structured error payload -/

namespace Spec

/-- Skips JSON insignificant whitespace. -/
def skipWS : List Char → List Char
  | [] => []
  | c :: cs => if c = ' ' ∨ c = '\n' ∨ c = '\r' ∨ c = '\t' then skipWS cs else c :: cs

/-- Hexadecimal digit of a `\u` escape. -/
def isHex (c : Char) : Bool := (Go.url.unhex c).isSome

/-- Reads a JSON string after its opening quote: the raw text up to the closing
quote and the text after it; none when the string is malformed. -/
def readString : List Char → Option (List Char × List Char)
  | [] => none
  | '"' :: rest => some ([], rest)
  | '\\' :: 'u' :: a :: b :: c :: d :: rest =>
    if isHex a && isHex b && isHex c && isHex d then
      (readString rest).map (fun p => ('\\' :: 'u' :: a :: b :: c :: d :: p.1, p.2))
    else none
  | '\\' :: e :: rest =>
    if e = '"' ∨ e = '\\' ∨ e = '/' ∨ e = 'b' ∨ e = 'f' ∨ e = 'n' ∨ e = 'r' ∨ e = 't' then
      (readString rest).map (fun p => ('\\' :: e :: p.1, p.2))
    else none
  | '\\' :: [] => none
  | c :: rest =>
    if c.toNat < 0x20 then none
    else (readString rest).map (fun p => (c :: p.1, p.2))

/-- The body is a JSON text that is an object with exactly one member, whose
name is `error` and whose value is a string. -/
def isErrorObject (body : String) : Bool :=
  match skipWS body.toList with
  | '{' :: r1 =>
    match skipWS r1 with
    | '"' :: r2 =>
      match readString r2 with
      | some (key, r3) =>
        key == "error".toList &&
        match skipWS r3 with
        | ':' :: r4 =>
          match skipWS r4 with
          | '"' :: r5 =>
            match readString r5 with
            | some (_, r6) =>
              match skipWS r6 with
              | '}' :: r7 => (skipWS r7).isEmpty
              | _ => false
            | none => false
          | _ => false
        | _ => false
      | none => false
    | _ => false
  | _ => false

end Spec

/-! ## service-a/main.go -/

namespace ServiceA

/-- Source: `type ZipCodeRequest`, lines 20-22. -/
structure ZipCodeRequest where
  CEP : String := ""
  deriving DecidableEq, Repr

/-- Everything `requestWeatherHandler` reaches outside its own file. -/
structure Platform where
  /-- The process environment; `os.Getenv` reads it. -/
  environ : String → Option String
  /-- The call `json.NewDecoder(r.Body).Decode(&req)` on the body text. -/
  Decode : String → Except String ZipCodeRequest
  /-- Whether `url.Parse` accepts the raw URL. -/
  validURL : String → Bool
  /-- The call `client.Do` with the five second timeout: a response, or a
  transport error. -/
  Do : Go.http.Request → Except String Go.http.Response
  /-- The span id generator of the tracer provider. -/
  ids : Go.trace.IDGenerator

/-- The function `os.Getenv`: the empty string when the variable is unset. -/
def Platform.Getenv (P : Platform) (key : String) : String :=
  (P.environ key).getD ""

/-- What one run of a handler leaves behind: the response writer, the outbound
requests handed to `client.Do` in order, and the span the handler started. -/
structure Outcome where
  w : Go.http.ResponseWriter
  calls : List Go.http.Request
  span : Go.trace.SpanContext

/-- Source: `isValidZip` of service-a, lines 84-87. The error result of
`MatchString` is discarded; the pattern is well formed, so it is always nil. -/
def isValidZip (zip : String) : Bool :=
  Go.regexp.MatchString Go.regexp.zipPattern zip

/-- Source: `requestWeatherHandler`, lines 40-82. The outbound request is built
from the context of the span and a nil body; nothing is written to its header
map before it is handed to `client.Do`. On a response the status code goes to
`WriteHeader` and the body is copied as far as it can be read; the result of
`io.Copy` is dropped. -/
def requestWeatherHandler (P : Platform) (w : Go.http.ResponseWriter) (r : Go.http.Request) :
    Outcome :=
  let started := Go.trace.Start P.ids r.ctx "HandleRequestWeather"
  let ctx := started.1
  let span := started.2
  if r.Method ≠ Go.http.MethodPost then
    ⟨Go.http.Error w "Only POST method allowed" Go.http.StatusMethodNotAllowed, [], span⟩
  else
    match P.Decode r.Body with
    | .error _ => ⟨Go.http.Error w "Invalid request body" Go.http.StatusBadRequest, [], span⟩
    | .ok req =>
      if !isValidZip req.CEP then
        ⟨Go.http.Error w "\x7b\"error\":\"invalid zipcode\"\x7d"
          Go.http.StatusUnprocessableEntity, [], span⟩
      else
        let serviceBUrl := P.Getenv "SERVICE_B_URL"
        if serviceBUrl = "" then
          ⟨Go.http.Error w "Service B URL not configured" Go.http.StatusInternalServerError,
            [], span⟩
        else
          match Go.http.NewRequestWithContext P.validURL ctx "GET"
              (serviceBUrl ++ "/weather?cep=" ++ req.CEP) with
          | .error _ =>
            ⟨Go.http.Error w "Failed to create request" Go.http.StatusInternalServerError,
              [], span⟩
          | .ok req2 =>
            match P.Do req2 with
            | .error _ =>
              ⟨Go.http.Error w "Failed to contact Service B"
                Go.http.StatusInternalServerError, [req2], span⟩
            | .ok resp =>
              ⟨Go.io.Copy (w.WriteHeader resp.StatusCode) resp.Body, [req2], span⟩

end ServiceA

/-! ## service-b/main.go -/

namespace ServiceB

/-- Source: `type ViaCEPResponse`, lines 21-23. -/
structure ViaCEPResponse where
  Localidade : String := ""
  deriving DecidableEq, Repr

/-- Source: the field `Current` of `WeatherAPIResponse`, lines 26-28; `F` stands
for float64. -/
structure Current (F : Type) where
  TempC : F

/-- Source: `type WeatherAPIResponse`, lines 25-29. -/
structure WeatherAPIResponse (F : Type) where
  Current : Current F

/-- The map literal of `weatherHandler`, lines 69-74. -/
structure WeatherMap (F : Type) where
  city : String
  temp_C : F
  temp_F : F
  temp_K : F

/-- Everything `weatherHandler` reaches outside its own file; `F` stands for
float64. -/
structure Platform (F : Type) where
  /-- The process environment; `os.Getenv` reads it. -/
  environ : String → Option String
  /-- Whether `url.Parse` accepts the raw URL. -/
  validURL : String → Bool
  /-- The call `client.Do` with the five second timeout. -/
  Do : Go.http.Request → Except String Go.http.Response
  /-- The JSON decoder reading the body of the postal provider. -/
  DecodeViaCEP : Go.io.Reader → Except String ViaCEPResponse
  /-- The JSON decoder reading the body of the weather provider. -/
  DecodeWeather : Go.io.Reader → Except String (WeatherAPIResponse F)
  /-- Multiplication of float64. -/
  mul : F → F → F
  /-- Addition of float64. -/
  add : F → F → F
  /-- The constant `1.8` converted to float64. -/
  c1_8 : F
  /-- The constant `32` converted to float64. -/
  c32 : F
  /-- The constant `273` converted to float64. -/
  c273 : F
  /-- The bytes `json.NewEncoder(w).Encode` writes for the map, or its error
  (nothing is written then). -/
  Encode : WeatherMap F → Except String String
  /-- The span id generator of the tracer provider. -/
  ids : Go.trace.IDGenerator

/-- The function `os.Getenv`: the empty string when the variable is unset. -/
def Platform.Getenv {F : Type} (P : Platform F) (key : String) : String :=
  (P.environ key).getD ""

/-- What one run of the handler leaves behind: the response writer, the
outbound requests handed to `client.Do` in order, and the span it started. -/
structure Outcome where
  w : Go.http.ResponseWriter
  calls : List Go.http.Request
  span : Go.trace.SpanContext

/-- Source: `isValidZip` of service-b, lines 80-83. -/
def isValidZip (zip : String) : Bool :=
  Go.regexp.MatchString Go.regexp.zipPattern zip

/-- Source: `getCityByZip`, lines 85-116. Returns the result and the requests
handed to `client.Do`. -/
def getCityByZip {F : Type} (P : Platform F) (ctx : Go.trace.Context) (zip : String) :
    Except String String × List Go.http.Request :=
  let ctx1 := (Go.trace.Start P.ids ctx "getCityByZip").1
  match Go.http.NewRequestWithContext P.validURL ctx1 "GET"
      ("https://viacep.com.br/ws/" ++ zip ++ "/json/") with
  | .error err => (.error err, [])
  | .ok req =>
    match P.Do req with
    | .error err => (.error err, [req])
    | .ok resp =>
      if resp.StatusCode ≠ 200 then (.error "invalid zip", [req])
      else
        match P.DecodeViaCEP resp.Body with
        | .error err => (.error err, [req])
        | .ok data =>
          if data.Localidade = "" then (.error "city not found", [req])
          else (.ok data.Localidade, [req])

/-- Source: `getTemperature`, lines 118-151. -/
def getTemperature {F : Type} (P : Platform F) (ctx : Go.trace.Context) (city : String) :
    Except String F × List Go.http.Request :=
  let ctx1 := (Go.trace.Start P.ids ctx "getTemperature").1
  let apiKey := P.Getenv "WEATHER_API_KEY"
  if apiKey = "" then (.error "weather api key not configured", [])
  else
    let url := "http://api.weatherapi.com/v1/current.json?key=" ++ apiKey ++ "&q=" ++ city
    match Go.http.NewRequestWithContext P.validURL ctx1 "GET" url with
    | .error err => (.error err, [])
    | .ok req =>
      match P.Do req with
      | .error err => (.error err, [req])
      | .ok resp =>
        if resp.StatusCode ≠ 200 then (.error "failed to fetch weather", [req])
        else
          match P.DecodeWeather resp.Body with
          | .error err => (.error err, [req])
          | .ok data => (.ok data.Current.TempC, [req])

/-- Source: `weatherHandler`, lines 47-78. The span starts from the context of
the request; the headers of the request are not read. -/
def weatherHandler {F : Type} (P : Platform F) (w : Go.http.ResponseWriter)
    (r : Go.http.Request) : Outcome :=
  let started := Go.trace.Start P.ids r.ctx "HandleWeather"
  let ctx := started.1
  let span := started.2
  let zip := Go.url.Get (Go.url.Query r.URL) "cep"
  if !isValidZip zip then
    ⟨Go.http.Error w "\x7b\"error\":\"invalid zipcode\"\x7d"
      Go.http.StatusUnprocessableEntity, [], span⟩
  else
    match getCityByZip P ctx zip with
    | (.error _, calls) =>
      ⟨Go.http.Error w "\x7b\"error\":\"can not find zipcode\"\x7d" Go.http.StatusNotFound,
        calls, span⟩
    | (.ok city, calls) =>
      match getTemperature P ctx city with
      | (.error _, calls2) =>
        ⟨Go.http.Error w "\x7b\"error\":\"failed to fetch temperature\"\x7d"
          Go.http.StatusInternalServerError, calls ++ calls2, span⟩
      | (.ok tempC, calls2) =>
        let response : WeatherMap F :=
          { city := city
            temp_C := tempC
            temp_F := P.add (P.mul tempC P.c1_8) P.c32
            temp_K := P.add tempC P.c273 }
        let w1 : Go.http.ResponseWriter :=
          { w with header := Go.http.Header.Set w.header "Content-Type" "application/json" }
        match P.Encode response with
        | .error _ => ⟨w1, calls ++ calls2, span⟩
        | .ok bytes => ⟨w1.Write bytes, calls ++ calls2, span⟩

end ServiceB

/-! ## Serving one request, and the vocabulary of the statements -/

namespace ServiceA

/-- One request served: the handler run on the fresh writer of the server. -/
def serve (P : Platform) (r : Go.http.Request) : Outcome :=
  requestWeatherHandler P Go.http.newWriter r

/-- The response the caller receives, unless the handler panicked. -/
def Outcome.response (o : Outcome) : Go.http.Answer := o.w.finish

/-- The panic that stopped the handler, if any: the server then closes the
connection and the caller receives no response. -/
def Outcome.aborted (o : Outcome) : Option String := o.w.panicked

/-- The gateway relays: it made an outbound call and that call returned a
response. -/
def Relays (P : Platform) (r : Go.http.Request) : Prop :=
  ∃ req2 resp, req2 ∈ (serve P r).calls ∧ P.Do req2 = .ok resp

end ServiceA

namespace ServiceB

/-- One request served: the handler run on the fresh writer of the server. -/
def serve {F : Type} (P : Platform F) (r : Go.http.Request) : Outcome :=
  weatherHandler P Go.http.newWriter r

/-- The response the caller receives. -/
def Outcome.response (o : Outcome) : Go.http.Answer := o.w.finish

/-- The context `weatherHandler` passes to its two clients. -/
def handlerContext {F : Type} (P : Platform F) (r : Go.http.Request) : Go.trace.Context :=
  (Go.trace.Start P.ids r.ctx "HandleWeather").1

/-- The URL of the postal provider for a code. -/
def viaCEPURL (zip : String) : String := "https://viacep.com.br/ws/" ++ zip ++ "/json/"

/-- The request `getCityByZip` hands to `client.Do`. -/
def lookupRequest {F : Type} (P : Platform F) (ctx : Go.trace.Context) (zip : String) :
    Go.http.Request :=
  { Method := "GET"
    URL := viaCEPURL zip
    Header := []
    Body := ""
    ctx := (Go.trace.Start P.ids ctx "getCityByZip").1 }

/-- The URL of the weather provider for a credential and a city. -/
def weatherURL (apiKey city : String) : String :=
  "http://api.weatherapi.com/v1/current.json?key=" ++ apiKey ++ "&q=" ++ city

/-- The request `getTemperature` hands to `client.Do`. -/
def temperatureRequest {F : Type} (P : Platform F) (ctx : Go.trace.Context) (city : String) :
    Go.http.Request :=
  { Method := "GET"
    URL := weatherURL (P.Getenv "WEATHER_API_KEY") city
    Header := []
    Body := ""
    ctx := (Go.trace.Start P.ids ctx "getTemperature").1 }

/-- The ways the postal lookup fails, as the specification lists them: the URL is
refused, transport failure or timeout, a status other than 200, a body that
does not decode, or a decoded body whose `localidade` is empty or missing. -/
def PostalLookupFails {F : Type} (P : Platform F) (req : Go.http.Request) : Prop :=
  P.validURL req.URL = false ∨
  (∃ err, P.Do req = .error err) ∨
  (∃ resp, P.Do req = .ok resp ∧ resp.StatusCode ≠ 200) ∨
  (∃ resp err, P.Do req = .ok resp ∧ P.DecodeViaCEP resp.Body = .error err) ∨
  (∃ resp data, P.Do req = .ok resp ∧ P.DecodeViaCEP resp.Body = .ok data ∧
    data.Localidade = "")

/-- The ways the temperature fetch fails, as the specification lists them: the
credential is absent or empty, the URL is refused, transport failure or
timeout, a status other than 200, or a body that does not decode. -/
def TemperatureFetchFails {F : Type} (P : Platform F) (req : Go.http.Request) : Prop :=
  P.environ "WEATHER_API_KEY" = none ∨ P.environ "WEATHER_API_KEY" = some "" ∨
  P.validURL req.URL = false ∨
  (∃ err, P.Do req = .error err) ∨
  (∃ resp, P.Do req = .ok resp ∧ resp.StatusCode ≠ 200) ∨
  (∃ resp err, P.Do req = .ok resp ∧ P.DecodeWeather resp.Body = .error err)

end ServiceB

/-! ## Concrete platforms for the examples -/

namespace Scenario

/-- A decoder for the two body shapes of the examples: an object with the one
member `cep`, and the empty object (a missing `cep` leaves the empty string). -/
def decodeZip (body : String) : Except String ServiceA.ZipCodeRequest :=
  if body = "\x7b\x7d" then .ok { CEP := "" }
  else if body = "\x7b\"cep\":\"123\"\x7d" then .ok { CEP := "123" }
  else if body = "\x7b\"cep\":\"01310930\"\x7d" then .ok { CEP := "01310930" }
  else .error "invalid character"

/-- Span ids of the gateway process. -/
def gatewayIDs : Go.trace.IDGenerator :=
  { NewIDs := fun _ => (0xA1, 0xA2), NewSpanID := fun _ _ => 0xA3 }

/-- Span ids of the resolver process. -/
def resolverIDs : Go.trace.IDGenerator :=
  { NewIDs := fun _ => (0xB1, 0xB2), NewSpanID := fun _ _ => 0xB3 }

/-- A response whose body is read to its end. -/
def answer (status : Nat) (body : String) : Go.http.Response :=
  { StatusCode := status, Body := { sent := body } }

/-- A response whose body can be read for `n` characters only, after which the
read fails. -/
def cutAnswer (status : Nat) (body : String) (n : Nat) : Go.http.Response :=
  { StatusCode := status, Body := { sent := body, failAfter := some n } }

/-- A gateway whose environment holds the given `SERVICE_B_URL` (if any) and
whose outbound calls all get the given answer. -/
def gateway (serviceB : Option String) (answer : Except String Go.http.Response) :
    ServiceA.Platform :=
  { environ := fun key => if key = "SERVICE_B_URL" then serviceB else none
    Decode := decodeZip
    validURL := fun _ => true
    Do := fun _ => answer
    ids := gatewayIDs }

/-- The success body of the example of the specification. -/
def saoPaulo : String :=
  "\x7b\"city\":\"São Paulo\",\"temp_C\":25,\"temp_F\":77,\"temp_K\":298\x7d"

/-- The float64 values of the examples: a finite number, or a value that is not
finite (an infinity or NaN). -/
inductive Float64 where
  | finite (q : ℚ) : Float64
  | nonFinite : Float64
  deriving DecidableEq

/-- The largest finite float64, `(2^53 - 1) * 2^971`. -/
def maxFloat64 : ℚ := (2 ^ 53 - 1) * 2 ^ 971

/-- The result of an operation whose exact value is `q`: not finite beyond the
largest finite float64. Rounding inside the range is left out; at the inputs of
the examples (25 and 1e308) it changes no result. -/
def Float64.ofExact (q : ℚ) : Float64 :=
  if |q| ≤ maxFloat64 then .finite q else .nonFinite

/-- Multiplication of the example values. -/
def Float64.mul : Float64 → Float64 → Float64
  | .finite a, .finite b => Float64.ofExact (a * b)
  | _, _ => .nonFinite

/-- Addition of the example values. -/
def Float64.add : Float64 → Float64 → Float64
  | .finite a, .finite b => Float64.ofExact (a + b)
  | _, _ => .nonFinite

/-- The encoder of the examples: a value that is not finite is an error (`json:
unsupported value`), the map of the São Paulo example gives its text followed
by a line feed, and no other map belongs to the examples. -/
def encode (m : ServiceB.WeatherMap Float64) : Except String String :=
  match m.temp_C, m.temp_F, m.temp_K with
  | .finite c, .finite f, .finite k =>
    if m.city = "São Paulo" ∧ c = 25 ∧ f = 77 ∧ k = 298 then .ok (saoPaulo ++ "\n")
    else .error "not among the examples"
  | _, _, _ => .error "json: unsupported value"

/-- A resolver: the postal provider and the weather provider answer as given,
the credential is as given. -/
def resolver (apiKey : Option String) (postal weather : Except String Go.http.Response) :
    ServiceB.Platform Float64 :=
  { environ := fun key => if key = "WEATHER_API_KEY" then apiKey else none
    validURL := fun _ => true
    Do := fun req =>
      if req.URL = ServiceB.viaCEPURL "01310930" ∨ req.URL = ServiceB.viaCEPURL "00000000"
      then postal else weather
    DecodeViaCEP := fun body =>
      if body.delivered = "\x7b\"localidade\":\"São Paulo\"\x7d"
      then .ok { Localidade := "São Paulo" }
      else if body.delivered = "\x7b\x7d" then .ok { Localidade := "" }
      else .error "invalid character"
    DecodeWeather := fun body =>
      if body.delivered = "\x7b\"current\":\x7b\"temp_c\":25\x7d\x7d"
      then .ok { Current := { TempC := .finite 25 } }
      else if body.delivered = "\x7b\"current\":\x7b\"temp_c\":1e308\x7d\x7d"
      then .ok { Current := { TempC := .finite (10 ^ 308) } }
      else .error "invalid character"
    mul := Float64.mul
    add := Float64.add
    c1_8 := .finite (9 / 5)
    c32 := .finite 32
    c273 := .finite 273
    Encode := encode
    ids := resolverIDs }

/-- The request the example gateway hands to `client.Do` for a raw URL. -/
def forwarded (url : String) : Go.http.Request :=
  { Method := "GET", URL := url, Header := [], Body := "", ctx := ⟨some ⟨0xA1, 0xA2⟩⟩ }

/-- A POST to the gateway with the given body. -/
def post (body : String) : Go.http.Request :=
  { Method := "POST", URL := "/request-weather", Body := body }

/-- A GET to the resolver for the given code. -/
def getWeather (cep : String) : Go.http.Request :=
  { Method := "GET", URL := "/weather?cep=" ++ cep }

end Scenario

/-! ## Lemmas on the matcher -/

namespace Go.regexp

theorem step_rep (r : Regexp) (n : Nat) (t : Thread) :
    (Regexp.rep r n).step t
      = Nat.iterate (fun ts => ts.flatMap (fun u => r.step u)) n [t] := rfl

theorem step_concat (a b : Regexp) (t : Thread) :
    (Regexp.concat a b).step t = (a.step t).flatMap (fun u => b.step u) := rfl

theorem step_beginText (t : Thread) :
    Regexp.beginText.step t = if t.1 = 0 then [t] else [] := rfl

theorem step_endText (t : Thread) :
    Regexp.endText.step t = if t.2.isEmpty then [t] else [] := rfl

theorem iterate_flatMap_nil (f : Thread → List Thread) (n : Nat) :
    Nat.iterate (fun ts => ts.flatMap f) n [] = [] := by
  induction n with
  | zero => rfl
  | succ n ih => simpa [Function.iterate_succ] using ih

/-- A run of `n` digits: the repetition either fails or leaves exactly one
thread, `n` runes further on. -/
theorem step_rep_digit (n : Nat) : ∀ (pos : Nat) (rest : List Char),
    (Regexp.rep perlDigit n).step (pos, rest) =
      if n ≤ rest.length ∧ ∀ c ∈ rest.take n, 0x30 ≤ c.toNat ∧ c.toNat ≤ 0x39
      then [(pos + n, rest.drop n)] else [] := by
  induction n with
  | zero => intro pos rest; simp [Regexp.step]
  | succ n ih =>
    intro pos rest
    have hunf : (Regexp.rep perlDigit (n + 1)).step (pos, rest)
        = Nat.iterate (fun ts => ts.flatMap (fun u => perlDigit.step u)) n
            (perlDigit.step (pos, rest)) := by
      simp [Regexp.step, Function.iterate_succ]
    rw [hunf]
    cases rest with
    | nil =>
      simp [perlDigit, Regexp.step]
      exact iterate_flatMap_nil _ n
    | cons c rest =>
      by_cases hc : 0x30 ≤ c.toNat ∧ c.toNat ≤ 0x39
      · have h1 : perlDigit.step (pos, c :: rest) = [(pos + 1, rest)] := by
          simp [perlDigit, Regexp.step, hc]
        rw [h1]
        have h2 := ih (pos + 1) rest
        rw [step_rep] at h2
        rw [h2]
        simp [hc, Nat.add_assoc, Nat.add_comm 1 n]
      · have h1 : perlDigit.step (pos, c :: rest) = [] := by
          simp only [perlDigit, Regexp.step]
          rw [if_neg hc]
        rw [h1, iterate_flatMap_nil]
        have : ¬ (n + 1 ≤ (c :: rest).length ∧
            ∀ d ∈ (c :: rest).take (n + 1), 0x30 ≤ d.toNat ∧ d.toNat ≤ 0x39) := by
          intro h
          exact hc (h.2 c (by simp))
        rw [if_neg this]

/-- The zip pattern matches at a thread exactly when the thread is at offset
zero and what is ahead is eight digits and nothing else. -/
theorem step_zipPattern (pos : Nat) (rest : List Char) :
    (zipPattern.step (pos, rest)).isEmpty = false ↔
      pos = 0 ∧ rest.length = 8 ∧ ∀ c ∈ rest, 0x30 ≤ c.toNat ∧ c.toNat ≤ 0x39 := by
  have hrep := step_rep_digit 8
  unfold zipPattern
  rw [step_concat, step_beginText]
  by_cases hp : pos = 0
  · subst hp
    simp only [if_true, List.flatMap_cons, List.flatMap_nil, List.append_nil, step_concat, hrep,
      step_endText]
    by_cases h8 : 8 ≤ rest.length ∧ ∀ c ∈ rest.take 8, 0x30 ≤ c.toNat ∧ c.toNat ≤ 0x39
    · rw [if_pos h8]
      simp only [List.flatMap_cons, List.flatMap_nil, List.append_nil]
      by_cases hd : rest.drop 8 = []
      · have hlen : rest.length = 8 := by
          have := List.drop_eq_nil_iff.mp hd
          omega
        have htake : rest.take 8 = rest := List.take_of_length_le (by omega)
        rw [htake] at h8
        simpa [hd, hlen] using h8.2
      · have hlen : ¬ rest.length = 8 := by
          intro h
          exact hd (List.drop_eq_nil_iff.mpr (by omega))
        simp [hd, hlen]
    · rw [if_neg h8]
      simp only [List.flatMap_nil, List.isEmpty_nil, true_and]
      constructor
      · intro h; cases h
      · rintro ⟨hlen, hall⟩
        exact absurd ⟨by omega, fun c hc => hall c (List.mem_of_mem_take hc)⟩ h8
  · simp [hp]

theorem search_zipPattern_pos (rest : List Char) : ∀ pos, 0 < pos →
    zipPattern.search pos rest = false := by
  induction rest with
  | nil =>
    intro pos hpos
    have := (step_zipPattern pos []).not.mpr (by omega)
    simpa [Regexp.search] using this
  | cons c rest ih =>
    intro pos hpos
    have := (step_zipPattern pos (c :: rest)).not.mpr (by omega)
    simp only [Regexp.search, ih (pos + 1) (by omega), Bool.or_false]
    simpa using this

/-- The search for the zip pattern succeeds exactly on eight ASCII digits. -/
theorem matchString_zipPattern (s : String) :
    MatchString zipPattern s = true ↔
      s.length = 8 ∧ ∀ c ∈ s.toList, '0' ≤ c ∧ c ≤ '9' := by
  have hstep := step_zipPattern 0 s.toList
  have hs : zipPattern.search 0 s.toList = !(zipPattern.step (0, s.toList)).isEmpty := by
    cases h : s.toList with
    | nil => simp [Regexp.search]
    | cons c rest => simp [Regexp.search, search_zipPattern_pos rest 1 (by omega)]
  unfold MatchString
  rw [hs]
  simp only [Bool.not_eq_true', hstep, true_and]
  rfl

/-- A string of ASCII characters has as many bytes as characters. -/
theorem utf8ByteSize_go_ascii (l : List Char) (h : ∀ c ∈ l, c.toNat ≤ 0x7f) :
    String.utf8ByteSize.go l = l.length := by
  induction l with
  | nil => rfl
  | cons c cs ih =>
    have hc : c.utf8Size = 1 := by
      have h1 : c.val ≤ 127 := by
        have := h c (by simp)
        exact UInt32.le_def.mpr (by simpa [Char.toNat] using this)
      simp [Char.utf8Size, h1]
    simp only [String.utf8ByteSize.go, List.length_cons, hc]
    rw [ih (fun d hd => h d (by simp [hd]))]

end Go.regexp

/-! ## C1 -/

/-- C1: in both services `isValidZip s` is true exactly when `s` has length 8
(in runes, and equally in bytes) and every character is an ASCII digit; it is
false for the empty string, for `123`, for `abcdefgh`, for eight digits followed
by a newline, for `01310-930`, for a signed code and for eight Arabic-Indic
digits. -/
theorem C1_isValidZip_iff_eight_ascii_digits :
    (∀ s : String,
      (ServiceA.isValidZip s = true ↔ s.length = 8 ∧ ∀ c ∈ s.toList, '0' ≤ c ∧ c ≤ '9') ∧
      (ServiceB.isValidZip s = true ↔ s.length = 8 ∧ ∀ c ∈ s.toList, '0' ≤ c ∧ c ≤ '9') ∧
      (ServiceA.isValidZip s = true ↔
        s.utf8ByteSize = 8 ∧ ∀ c ∈ s.toList, '0' ≤ c ∧ c ≤ '9')) ∧
    ServiceA.isValidZip "01310930" = true ∧ ServiceB.isValidZip "01310930" = true ∧
    ServiceA.isValidZip "" = false ∧ ServiceB.isValidZip "" = false ∧
    ServiceA.isValidZip "123" = false ∧ ServiceB.isValidZip "123" = false ∧
    ServiceA.isValidZip "abcdefgh" = false ∧ ServiceB.isValidZip "abcdefgh" = false ∧
    ServiceA.isValidZip "01310930\n" = false ∧ ServiceB.isValidZip "01310930\n" = false ∧
    ServiceA.isValidZip "01310-930" = false ∧ ServiceB.isValidZip "01310-930" = false ∧
    ServiceA.isValidZip "-1310930" = false ∧ ServiceB.isValidZip "+1310930" = false ∧
    ServiceA.isValidZip "٠١٢٣٤٥٦٧" = false ∧ ServiceB.isValidZip "٠١٢٣٤٥٦٧" = false := by
  refine ⟨fun s => ⟨Go.regexp.matchString_zipPattern s, Go.regexp.matchString_zipPattern s, ?_⟩,
    ?_⟩
  · have hbytes : (∀ c ∈ s.toList, '0' ≤ c ∧ c ≤ '9') → s.utf8ByteSize = s.length := by
      intro hall
      exact Go.regexp.utf8ByteSize_go_ascii s.toList (fun c hc => by
        have h9 : c.toNat ≤ 0x39 := (hall c hc).2
        omega)
    show Go.regexp.MatchString Go.regexp.zipPattern s = true ↔ _
    rw [Go.regexp.matchString_zipPattern]
    constructor
    · rintro ⟨hlen, hall⟩
      exact ⟨by rw [hbytes hall]; exact hlen, hall⟩
    · rintro ⟨hlen, hall⟩
      exact ⟨by rw [← hbytes hall]; exact hlen, hall⟩
  · decide

/-! ## Lemmas on the response writer -/

namespace Go.http

theorem finish_Error_newWriter (msg : String) (code : Nat)
    (hcode : 200 ≤ code ∧ code ≤ 999) :
    (Error newWriter msg code).finish =
      { StatusCode := code
        Header := [("X-Content-Type-Options", "nosniff"),
          ("Content-Type", "text/plain; charset=utf-8")]
        Body := msg ++ "\n" } := by
  have h : ("" : String) ++ (msg ++ "\n") = msg ++ "\n" := by
    apply String.ext
    simp
  have h1 : ¬ (code < 100 ∨ 999 < code) := by omega
  have h2 : ¬ (code ≤ 199 ∧ code ≠ 101) := by omega
  simp [Error, newWriter, ResponseWriter.finish, ResponseWriter.Write,
    ResponseWriter.WriteHeader, Header.Set, Header.Del, h, h1, h2]

theorem finish_Copy_newWriter (code : Nat) (body : Go.io.Reader)
    (hcode : 200 ≤ code ∧ code ≤ 999) :
    (Go.io.Copy (newWriter.WriteHeader code) body).finish =
        { StatusCode := code, Header := [], Body := body.delivered } ∧
      (Go.io.Copy (newWriter.WriteHeader code) body).panicked = none := by
  have h : ("" : String) ++ body.delivered = body.delivered := by
    apply String.ext
    simp
  have h1 : ¬ (code < 100 ∨ 999 < code) := by omega
  have h2 : ¬ (code ≤ 199 ∧ code ≠ 101) := by omega
  by_cases hd : body.delivered = ""
  · simp [Go.io.Copy, hd, newWriter, ResponseWriter.finish, ResponseWriter.WriteHeader, h1, h2]
  · simp [Go.io.Copy, hd, newWriter, ResponseWriter.finish, ResponseWriter.Write,
      ResponseWriter.WriteHeader, h, h1, h2]

end Go.http

/-! ## The gateway -/

namespace ServiceA

/-- The six ways `requestWeatherHandler` ends, with the calls it made. -/
theorem gateway_serve_cases (P : Platform) (r : Go.http.Request) :
    (r.Method ≠ "POST" ∧ (serve P r).calls = [] ∧
      (serve P r).response.StatusCode = 405 ∧
      (serve P r).response.Body = "Only POST method allowed\n") ∨
    (r.Method = "POST" ∧ (∃ err, P.Decode r.Body = .error err) ∧ (serve P r).calls = [] ∧
      (serve P r).response.StatusCode = 400 ∧
      (serve P r).response.Body = "Invalid request body\n") ∨
    (r.Method = "POST" ∧ (∃ req, P.Decode r.Body = .ok req ∧ isValidZip req.CEP = false) ∧
      (serve P r).calls = [] ∧
      (serve P r).response.StatusCode = 422 ∧
      (serve P r).response.Body = "\x7b\"error\":\"invalid zipcode\"\x7d\n") ∨
    (r.Method = "POST" ∧ (∃ req, P.Decode r.Body = .ok req ∧ isValidZip req.CEP = true) ∧
      P.Getenv "SERVICE_B_URL" = "" ∧ (serve P r).calls = [] ∧
      (serve P r).response.StatusCode = 500 ∧
      (serve P r).response.Body = "Service B URL not configured\n") ∨
    (r.Method = "POST" ∧ (∃ req, P.Decode r.Body = .ok req ∧ isValidZip req.CEP = true) ∧
      P.Getenv "SERVICE_B_URL" ≠ "" ∧ (serve P r).calls = [] ∧
      (serve P r).response.StatusCode = 500 ∧
      (serve P r).response.Body = "Failed to create request\n") ∨
    (r.Method = "POST" ∧ P.Getenv "SERVICE_B_URL" ≠ "" ∧
      ∃ req req2, P.Decode r.Body = .ok req ∧ isValidZip req.CEP = true ∧
        req2.Method = "GET" ∧
        req2.URL = P.Getenv "SERVICE_B_URL" ++ "/weather?cep=" ++ req.CEP ∧
        req2.Header = [] ∧
        (serve P r).calls = [req2] ∧
        ((∃ err, P.Do req2 = .error err ∧
            (serve P r).response.StatusCode = 500 ∧
            (serve P r).response.Body = "Failed to contact Service B\n") ∨
         (∃ resp, P.Do req2 = .ok resp ∧
            (serve P r).w
              = Go.io.Copy (Go.http.newWriter.WriteHeader resp.StatusCode) resp.Body))) := by
  unfold serve requestWeatherHandler Outcome.response
  by_cases hm : r.Method = "POST"
  · cases hd : P.Decode r.Body with
    | error err =>
      right; left
      simp [hm, Go.http.MethodPost, Go.http.finish_Error_newWriter,
        Go.http.StatusBadRequest]
    | ok req =>
      cases hz : isValidZip req.CEP with
      | false =>
        right; right; left
        simp [hm, hz, Go.http.MethodPost, Go.http.finish_Error_newWriter,
          Go.http.StatusUnprocessableEntity]
      | true =>
        by_cases hu : P.Getenv "SERVICE_B_URL" = ""
        · right; right; right; left
          simp [hm, hz, hu, Go.http.MethodPost, Go.http.finish_Error_newWriter,
            Go.http.StatusInternalServerError]
        · cases hv : P.validURL (P.Getenv "SERVICE_B_URL" ++ "/weather?cep=" ++ req.CEP) with
          | false =>
            right; right; right; right; left
            simp [hm, hz, hu, hv, Go.http.MethodPost, Go.http.finish_Error_newWriter,
              Go.http.StatusInternalServerError, Go.http.NewRequestWithContext]
          | true =>
            right; right; right; right; right
            cases hdo : P.Do
                { Method := "GET"
                  URL := P.Getenv "SERVICE_B_URL" ++ "/weather?cep=" ++ req.CEP
                  Header := []
                  Body := ""
                  ctx := (Go.trace.Start P.ids r.ctx "HandleRequestWeather").1 } with
            | error err =>
              refine ⟨hm, hu, req,
                { Method := "GET"
                  URL := P.Getenv "SERVICE_B_URL" ++ "/weather?cep=" ++ req.CEP
                  Header := []
                  Body := ""
                  ctx := (Go.trace.Start P.ids r.ctx "HandleRequestWeather").1 },
                rfl, hz, rfl, rfl, rfl, ?_, Or.inl ⟨err, hdo, ?_, ?_⟩⟩
              all_goals
                simp [hm, hz, hu, hv, hdo, Go.http.MethodPost, Go.http.finish_Error_newWriter,
                  Go.http.StatusInternalServerError, Go.http.NewRequestWithContext]
            | ok resp =>
              refine ⟨hm, hu, req,
                { Method := "GET"
                  URL := P.Getenv "SERVICE_B_URL" ++ "/weather?cep=" ++ req.CEP
                  Header := []
                  Body := ""
                  ctx := (Go.trace.Start P.ids r.ctx "HandleRequestWeather").1 },
                rfl, hz, rfl, rfl, rfl, ?_, Or.inr ⟨resp, hdo, ?_⟩⟩
              all_goals
                simp [hm, hz, hu, hv, hdo, Go.http.MethodPost, Go.http.NewRequestWithContext]
  · left
    simp [hm, Go.http.MethodPost, Go.http.finish_Error_newWriter,
      Go.http.StatusMethodNotAllowed]

end ServiceA

/-! ## C2, C3, C9: the gateway -/

/-- C2: a POST whose body decodes to a request with a code that `isValidZip`
rejects (a missing `cep` decodes to the empty string, which is rejected) is
answered with status 422 and the payload `{"error":"invalid zipcode"}`, which
`http.Error` ends with a line feed, and no outbound call is made, whatever the
platform holds under `SERVICE_B_URL`. -/
theorem C2_invalid_zip_answers_422_without_call (P : ServiceA.Platform)
    (r : Go.http.Request) (req : ServiceA.ZipCodeRequest)
    (hmethod : r.Method = "POST") (hdecode : P.Decode r.Body = .ok req)
    (hzip : ServiceA.isValidZip req.CEP = false) :
    (ServiceA.serve P r).response.StatusCode = 422 ∧
    (ServiceA.serve P r).response.Body = "\x7b\"error\":\"invalid zipcode\"\x7d\n" ∧
    (ServiceA.serve P r).calls = [] := by
  rcases ServiceA.gateway_serve_cases P r with h | h | h | h | h | h
  · exact absurd hmethod h.1
  · obtain ⟨_, ⟨err, he⟩, _⟩ := h
    rw [hdecode] at he
    cases he
  · exact ⟨h.2.2.2.1, h.2.2.2.2, h.2.2.1⟩
  · obtain ⟨_, ⟨req1, hd, hv⟩, _⟩ := h
    rw [hdecode] at hd
    cases hd
    rw [hzip] at hv
    cases hv
  · obtain ⟨_, ⟨req1, hd, hv⟩, _⟩ := h
    rw [hdecode] at hd
    cases hd
    rw [hzip] at hv
    cases hv
  · obtain ⟨_, _, req1, _, hd, hv, _⟩ := h
    rw [hdecode] at hd
    cases hd
    rw [hzip] at hv
    cases hv

/-- C2 at the bodies `{"cep":"123"}` and `{}` (missing `cep`), with the
resolver address configured. -/
theorem C2_invalid_zip_answers_422_without_call_witness :
    ((ServiceA.serve (Scenario.gateway (some "http://service-b:8080") (.error "unreachable"))
        (Scenario.post "\x7b\"cep\":\"123\"\x7d")).response.StatusCode = 422 ∧
      (ServiceA.serve (Scenario.gateway (some "http://service-b:8080") (.error "unreachable"))
        (Scenario.post "\x7b\"cep\":\"123\"\x7d")).response.Body
          = "\x7b\"error\":\"invalid zipcode\"\x7d\n" ∧
      (ServiceA.serve (Scenario.gateway (some "http://service-b:8080") (.error "unreachable"))
        (Scenario.post "\x7b\"cep\":\"123\"\x7d")).calls = []) ∧
    ((ServiceA.serve (Scenario.gateway (some "http://service-b:8080") (.error "unreachable"))
        (Scenario.post "\x7b\x7d")).response.StatusCode = 422 ∧
      (ServiceA.serve (Scenario.gateway (some "http://service-b:8080") (.error "unreachable"))
        (Scenario.post "\x7b\x7d")).response.Body
          = "\x7b\"error\":\"invalid zipcode\"\x7d\n" ∧
      (ServiceA.serve (Scenario.gateway (some "http://service-b:8080") (.error "unreachable"))
        (Scenario.post "\x7b\x7d")).calls = []) :=
  ⟨C2_invalid_zip_answers_422_without_call _ _ { CEP := "123" } rfl rfl (by decide),
   C2_invalid_zip_answers_422_without_call _ _ { CEP := "" } rfl rfl (by decide)⟩

/-- C3 as stated fails, in two ways. The outbound call returns status 200 and a
body `part1part2` whose read fails after five characters (the timeout of the
client runs on while the body is copied): the caller receives 200 with the body
`part1`. The outbound call returns the status code 99: `WriteHeader` panics and
the caller receives no response. -/
theorem C3_relay_truncates_body_and_panics_on_status :
    (ServiceA.serve
        (Scenario.gateway (some "http://service-b:8080")
          (.ok (Scenario.cutAnswer 200 "part1part2" 5)))
        (Scenario.post "\x7b\"cep\":\"01310930\"\x7d")).calls
      = [Scenario.forwarded "http://service-b:8080/weather?cep=01310930"] ∧
    (ServiceA.serve
        (Scenario.gateway (some "http://service-b:8080")
          (.ok (Scenario.cutAnswer 200 "part1part2" 5)))
        (Scenario.post "\x7b\"cep\":\"01310930\"\x7d")).response.StatusCode = 200 ∧
    (ServiceA.serve
        (Scenario.gateway (some "http://service-b:8080")
          (.ok (Scenario.cutAnswer 200 "part1part2" 5)))
        (Scenario.post "\x7b\"cep\":\"01310930\"\x7d")).response.Body = "part1" ∧
    (Scenario.cutAnswer 200 "part1part2" 5).Body.sent = "part1part2" ∧
    (ServiceA.serve
        (Scenario.gateway (some "http://service-b:8080") (.ok (Scenario.answer 99 "body")))
        (Scenario.post "\x7b\"cep\":\"01310930\"\x7d")).calls
      = [Scenario.forwarded "http://service-b:8080/weather?cep=01310930"] ∧
    (ServiceA.serve
        (Scenario.gateway (some "http://service-b:8080") (.ok (Scenario.answer 99 "body")))
        (Scenario.post "\x7b\"cep\":\"01310930\"\x7d")).aborted
      = some "invalid WriteHeader code" := by
  decide

/-- C3 amended: when the gateway has handed a request to `client.Do` and that
call returned a response whose status code lies between 200 and 999, the
handler does not panic and the caller receives exactly that status code and
exactly the bytes of the downstream body that could be read before the read
ended; when the body is read to its end, that is exactly the downstream body. -/
theorem C3_relays_status_and_body_as_read (P : ServiceA.Platform) (r : Go.http.Request)
    (req2 : Go.http.Request) (resp : Go.http.Response)
    (hcall : req2 ∈ (ServiceA.serve P r).calls) (hresp : P.Do req2 = .ok resp)
    (hcode : 200 ≤ resp.StatusCode ∧ resp.StatusCode ≤ 999) :
    (ServiceA.serve P r).aborted = none ∧
    (ServiceA.serve P r).response.StatusCode = resp.StatusCode ∧
    (ServiceA.serve P r).response.Body = resp.Body.delivered ∧
    (resp.Body.failAfter = none → (ServiceA.serve P r).response.Body = resp.Body.sent) := by
  rcases ServiceA.gateway_serve_cases P r with h | h | h | h | h | h
  · rw [h.2.1] at hcall; cases hcall
  · rw [h.2.2.1] at hcall; cases hcall
  · rw [h.2.2.1] at hcall; cases hcall
  · rw [h.2.2.2.1] at hcall; cases hcall
  · rw [h.2.2.2.1] at hcall; cases hcall
  · obtain ⟨_, _, req1, req3, _, _, _, _, _, hcalls, hdo⟩ := h
    rw [hcalls] at hcall
    have heq : req2 = req3 := by simpa using hcall
    subst heq
    rcases hdo with ⟨err, he, _⟩ | ⟨resp1, hr, hw⟩
    · rw [hresp] at he
      cases he
    · rw [hresp] at hr
      cases hr
      obtain ⟨hfinish, hpanic⟩ := Go.http.finish_Copy_newWriter resp.StatusCode resp.Body hcode
      have hs : (ServiceA.serve P r).response
          = { StatusCode := resp.StatusCode, Header := [], Body := resp.Body.delivered } := by
        unfold ServiceA.Outcome.response
        rw [hw]
        exact hfinish
      have ha : (ServiceA.serve P r).aborted = none := by
        unfold ServiceA.Outcome.aborted
        rw [hw]
        exact hpanic
      refine ⟨ha, by rw [hs], by rw [hs], ?_⟩
      intro hend
      rw [hs]
      show resp.Body.delivered = resp.Body.sent
      unfold Go.io.Reader.delivered
      rw [hend]

/-- C3 amended, at the example of the specification (downstream 200 with the
São Paulo body, read to its end) and at a downstream 404 with its error body. -/
theorem C3_relays_status_and_body_as_read_witness :
    ((ServiceA.serve
        (Scenario.gateway (some "http://service-b:8080")
          (.ok (Scenario.answer 200 Scenario.saoPaulo)))
        (Scenario.post "\x7b\"cep\":\"01310930\"\x7d")).response.StatusCode = 200 ∧
      (ServiceA.serve
        (Scenario.gateway (some "http://service-b:8080")
          (.ok (Scenario.answer 200 Scenario.saoPaulo)))
        (Scenario.post "\x7b\"cep\":\"01310930\"\x7d")).response.Body
          = "\x7b\"city\":\"São Paulo\",\"temp_C\":25,\"temp_F\":77,\"temp_K\":298\x7d") ∧
    ((ServiceA.serve
        (Scenario.gateway (some "http://service-b:8080")
          (.ok (Scenario.answer 404 "\x7b\"error\":\"can not find zipcode\"\x7d\n")))
        (Scenario.post "\x7b\"cep\":\"01310930\"\x7d")).response.StatusCode = 404 ∧
      (ServiceA.serve
        (Scenario.gateway (some "http://service-b:8080")
          (.ok (Scenario.answer 404 "\x7b\"error\":\"can not find zipcode\"\x7d\n")))
        (Scenario.post "\x7b\"cep\":\"01310930\"\x7d")).response.Body
          = "\x7b\"error\":\"can not find zipcode\"\x7d\n") :=
  ⟨⟨(C3_relays_status_and_body_as_read _ _
        (Scenario.forwarded "http://service-b:8080/weather?cep=01310930")
        (Scenario.answer 200 Scenario.saoPaulo) (by decide) rfl (by decide)).2.1,
    (C3_relays_status_and_body_as_read _ _
        (Scenario.forwarded "http://service-b:8080/weather?cep=01310930")
        (Scenario.answer 200 Scenario.saoPaulo) (by decide) rfl (by decide)).2.2.2 rfl⟩,
   ⟨(C3_relays_status_and_body_as_read _ _
        (Scenario.forwarded "http://service-b:8080/weather?cep=01310930")
        (Scenario.answer 404 "\x7b\"error\":\"can not find zipcode\"\x7d\n")
        (by decide) rfl (by decide)).2.1,
    (C3_relays_status_and_body_as_read _ _
        (Scenario.forwarded "http://service-b:8080/weather?cep=01310930")
        (Scenario.answer 404 "\x7b\"error\":\"can not find zipcode\"\x7d\n")
        (by decide) rfl (by decide)).2.2.2 rfl⟩⟩

/-- C9: with a POST, a decoded body and a valid code, an absent or empty
`SERVICE_B_URL` is answered with status 500 and the text `Service B URL not
configured`, without an outbound call; an outbound call is made only when the
method is POST, the body decoded, the code is valid and `SERVICE_B_URL` is set
and not empty; and at most one call is made. -/
theorem C9_outbound_call_only_when_configured (P : ServiceA.Platform) (r : Go.http.Request) :
    (∀ req, r.Method = "POST" → P.Decode r.Body = .ok req →
      ServiceA.isValidZip req.CEP = true →
      (P.environ "SERVICE_B_URL" = none ∨ P.environ "SERVICE_B_URL" = some "") →
      (ServiceA.serve P r).response.StatusCode = 500 ∧
      (ServiceA.serve P r).response.Body = "Service B URL not configured\n" ∧
      (ServiceA.serve P r).calls = []) ∧
    ((ServiceA.serve P r).calls ≠ [] →
      r.Method = "POST" ∧
      (∃ req, P.Decode r.Body = .ok req ∧ ServiceA.isValidZip req.CEP = true) ∧
      (∃ v, P.environ "SERVICE_B_URL" = some v ∧ v ≠ "")) ∧
    (ServiceA.serve P r).calls.length ≤ 1 := by
  have henv : P.Getenv "SERVICE_B_URL" ≠ "" →
      ∃ v, P.environ "SERVICE_B_URL" = some v ∧ v ≠ "" := by
    intro h
    unfold ServiceA.Platform.Getenv at h
    cases hv : P.environ "SERVICE_B_URL" with
    | none => rw [hv] at h; exact absurd rfl h
    | some v => rw [hv] at h; exact ⟨v, rfl, h⟩
  refine ⟨?_, ?_, ?_⟩
  · intro req hmethod hdecode hzip hempty
    have hget : P.Getenv "SERVICE_B_URL" = "" := by
      unfold ServiceA.Platform.Getenv
      rcases hempty with h | h <;> rw [h] <;> rfl
    rcases ServiceA.gateway_serve_cases P r with h | h | h | h | h | h
    · exact absurd hmethod h.1
    · obtain ⟨_, ⟨err, he⟩, _⟩ := h
      rw [hdecode] at he
      cases he
    · obtain ⟨_, ⟨req1, hd, hv⟩, _⟩ := h
      rw [hdecode] at hd
      cases hd
      rw [hzip] at hv
      cases hv
    · exact ⟨h.2.2.2.2.1, h.2.2.2.2.2, h.2.2.2.1⟩
    · exact absurd hget h.2.2.1
    · exact absurd hget h.2.1
  · intro hcalls
    rcases ServiceA.gateway_serve_cases P r with h | h | h | h | h | h
    · exact absurd h.2.1 hcalls
    · exact absurd h.2.2.1 hcalls
    · exact absurd h.2.2.1 hcalls
    · exact absurd h.2.2.2.1 hcalls
    · exact absurd h.2.2.2.1 hcalls
    · obtain ⟨hm, hu, req, req2, hd, hz, _⟩ := h
      exact ⟨hm, ⟨req, hd, hz⟩, henv hu⟩
  · rcases ServiceA.gateway_serve_cases P r with h | h | h | h | h | h
    · rw [h.2.1]; decide
    · rw [h.2.2.1]; decide
    · rw [h.2.2.1]; decide
    · rw [h.2.2.2.1]; decide
    · rw [h.2.2.2.1]; decide
    · obtain ⟨_, _, req, req2, _, _, _, _, _, hcalls, _⟩ := h
      rw [hcalls]
      simp

/-- C9 at a valid code with `SERVICE_B_URL` unset, and with it set to the empty
string. -/
theorem C9_outbound_call_only_when_configured_witness :
    ((ServiceA.serve (Scenario.gateway none (.error "unreachable"))
        (Scenario.post "\x7b\"cep\":\"01310930\"\x7d")).response.StatusCode = 500 ∧
      (ServiceA.serve (Scenario.gateway none (.error "unreachable"))
        (Scenario.post "\x7b\"cep\":\"01310930\"\x7d")).response.Body
          = "Service B URL not configured\n" ∧
      (ServiceA.serve (Scenario.gateway none (.error "unreachable"))
        (Scenario.post "\x7b\"cep\":\"01310930\"\x7d")).calls = []) ∧
    ((ServiceA.serve (Scenario.gateway (some "") (.error "unreachable"))
        (Scenario.post "\x7b\"cep\":\"01310930\"\x7d")).response.StatusCode = 500 ∧
      (ServiceA.serve (Scenario.gateway (some "") (.error "unreachable"))
        (Scenario.post "\x7b\"cep\":\"01310930\"\x7d")).response.Body
          = "Service B URL not configured\n" ∧
      (ServiceA.serve (Scenario.gateway (some "") (.error "unreachable"))
        (Scenario.post "\x7b\"cep\":\"01310930\"\x7d")).calls = []) :=
  ⟨(C9_outbound_call_only_when_configured _ _).1 { CEP := "01310930" } rfl rfl
      (by decide) (Or.inl (by decide)),
   (C9_outbound_call_only_when_configured _ _).1 { CEP := "01310930" } rfl rfl
      (by decide) (Or.inr (by decide))⟩

/-! ## The resolver -/

namespace ServiceB

/-- The postal lookup returns an error exactly in the listed failure cases. -/
theorem getCityByZip_error_iff {F : Type} (P : Platform F) (ctx : Go.trace.Context)
    (zip : String) :
    (∃ err, (getCityByZip P ctx zip).1 = .error err) ↔
      PostalLookupFails P (lookupRequest P ctx zip) := by
  unfold PostalLookupFails getCityByZip Go.http.NewRequestWithContext
  simp only [lookupRequest, viaCEPURL]
  cases hv : P.validURL ("https://viacep.com.br/ws/" ++ zip ++ "/json/") with
  | false => simp
  | true =>
    simp only [if_true]
    cases hdo : P.Do
        { Method := "GET"
          URL := "https://viacep.com.br/ws/" ++ zip ++ "/json/"
          Header := []
          Body := ""
          ctx := (Go.trace.Start P.ids ctx "getCityByZip").1 } with
    | error err => simp
    | ok resp =>
      by_cases hs : resp.StatusCode = 200
      · cases hdec : P.DecodeViaCEP resp.Body with
        | error err => simp [hs, hdec]
        | ok data =>
          by_cases hl : data.Localidade = ""
          · simp [hs, hdec, hl]
          · simp [hs, hdec, hl]
      · simp [hs]

/-- The postal lookup makes at most one call, to the postal provider. -/
theorem getCityByZip_calls {F : Type} (P : Platform F) (ctx : Go.trace.Context)
    (zip : String) :
    (getCityByZip P ctx zip).2 = [] ∨
      (getCityByZip P ctx zip).2 = [lookupRequest P ctx zip] := by
  unfold getCityByZip Go.http.NewRequestWithContext
  simp only [lookupRequest, viaCEPURL]
  cases hv : P.validURL ("https://viacep.com.br/ws/" ++ zip ++ "/json/") with
  | false => simp
  | true =>
    simp only [if_true]
    cases hdo : P.Do
        { Method := "GET"
          URL := "https://viacep.com.br/ws/" ++ zip ++ "/json/"
          Header := []
          Body := ""
          ctx := (Go.trace.Start P.ids ctx "getCityByZip").1 } with
    | error err => simp
    | ok resp =>
      by_cases hs : resp.StatusCode = 200
      · cases hdec : P.DecodeViaCEP resp.Body with
        | error err => simp [hs, hdec]
        | ok data =>
          by_cases hl : data.Localidade = ""
          · simp [hs, hdec, hl]
          · simp [hs, hdec, hl]
      · simp [hs]

/-- The temperature fetch returns an error exactly in the listed failure
cases. -/
theorem getTemperature_error_iff {F : Type} (P : Platform F) (ctx : Go.trace.Context)
    (city : String) :
    (∃ err, (getTemperature P ctx city).1 = .error err) ↔
      TemperatureFetchFails P (temperatureRequest P ctx city) := by
  unfold TemperatureFetchFails getTemperature Go.http.NewRequestWithContext
  simp only [temperatureRequest, weatherURL]
  have hkey : P.Getenv "WEATHER_API_KEY" = "" ↔
      (P.environ "WEATHER_API_KEY" = none ∨ P.environ "WEATHER_API_KEY" = some "") := by
    unfold Platform.Getenv
    cases P.environ "WEATHER_API_KEY" with
    | none => simp
    | some v => simp
  by_cases hk : P.Getenv "WEATHER_API_KEY" = ""
  · have := hkey.mp hk
    rcases this with h | h
    · simp [hk, h]
    · simp [hk, h]
  · have hnot := (not_congr hkey).mp hk
    have h1 : ¬ P.environ "WEATHER_API_KEY" = none := fun h => hnot (Or.inl h)
    have h2 : ¬ P.environ "WEATHER_API_KEY" = some "" := fun h => hnot (Or.inr h)
    simp only [hk, if_false, h1, h2, false_or]
    cases hv : P.validURL ("http://api.weatherapi.com/v1/current.json?key="
        ++ P.Getenv "WEATHER_API_KEY" ++ "&q=" ++ city) with
    | false => simp
    | true =>
      simp only [if_true]
      cases hdo : P.Do
          { Method := "GET"
            URL := "http://api.weatherapi.com/v1/current.json?key="
              ++ P.Getenv "WEATHER_API_KEY" ++ "&q=" ++ city
            Header := []
            Body := ""
            ctx := (Go.trace.Start P.ids ctx "getTemperature").1 } with
      | error err => simp
      | ok resp =>
        by_cases hs : resp.StatusCode = 200
        · cases hdec : P.DecodeWeather resp.Body with
          | error err => simp [hs, hdec]
          | ok data => simp [hs, hdec]
        · simp [hs]

/-- The four ways `weatherHandler` ends, with the calls it made. -/
theorem resolver_serve_cases {F : Type} (P : Platform F) (r : Go.http.Request) :
    (isValidZip (Go.url.Get (Go.url.Query r.URL) "cep") = false ∧
      (serve P r).calls = [] ∧
      (serve P r).response.StatusCode = 422 ∧
      (serve P r).response.Body = "\x7b\"error\":\"invalid zipcode\"\x7d\n") ∨
    (isValidZip (Go.url.Get (Go.url.Query r.URL) "cep") = true ∧
      (∃ err, (getCityByZip P (handlerContext P r)
        (Go.url.Get (Go.url.Query r.URL) "cep")).1 = .error err) ∧
      (serve P r).calls = (getCityByZip P (handlerContext P r)
        (Go.url.Get (Go.url.Query r.URL) "cep")).2 ∧
      (serve P r).response.StatusCode = 404 ∧
      (serve P r).response.Body = "\x7b\"error\":\"can not find zipcode\"\x7d\n") ∨
    (isValidZip (Go.url.Get (Go.url.Query r.URL) "cep") = true ∧
      ∃ city, (getCityByZip P (handlerContext P r)
          (Go.url.Get (Go.url.Query r.URL) "cep")).1 = .ok city ∧
        (∃ err, (getTemperature P (handlerContext P r) city).1 = .error err) ∧
        (serve P r).response.StatusCode = 500 ∧
        (serve P r).response.Body = "\x7b\"error\":\"failed to fetch temperature\"\x7d\n") ∨
    (isValidZip (Go.url.Get (Go.url.Query r.URL) "cep") = true ∧
      ∃ city tempC, (getCityByZip P (handlerContext P r)
          (Go.url.Get (Go.url.Query r.URL) "cep")).1 = .ok city ∧
        (getTemperature P (handlerContext P r) city).1 = .ok tempC ∧
        (serve P r).response.StatusCode = 200) := by
  unfold serve weatherHandler Outcome.response handlerContext
  cases hz : isValidZip (Go.url.Get (Go.url.Query r.URL) "cep") with
  | false =>
    left
    simp [hz, Go.http.finish_Error_newWriter, Go.http.StatusUnprocessableEntity]
  | true =>
    right
    rcases hc : getCityByZip P (Go.trace.Start P.ids r.ctx "HandleWeather").1
      (Go.url.Get (Go.url.Query r.URL) "cep") with ⟨res, calls⟩
    cases res with
    | error err =>
      left
      simp [hz, hc, Go.http.finish_Error_newWriter, Go.http.StatusNotFound]
    | ok city =>
      right
      rcases ht : getTemperature P (Go.trace.Start P.ids r.ctx "HandleWeather").1 city
        with ⟨res2, calls2⟩
      cases res2 with
      | error err =>
        left
        refine ⟨rfl, city, rfl, ?_⟩
        simp [hz, hc, ht, Go.http.finish_Error_newWriter, Go.http.StatusInternalServerError]
      | ok tempC =>
        right
        refine ⟨rfl, city, tempC, rfl, ?_⟩
        simp only [hz, hc, ht, true_and, Bool.not_true, Bool.false_eq_true, if_false]
        cases P.Encode
            { city := city
              temp_C := tempC
              temp_F := P.add (P.mul tempC P.c1_8) P.c32
              temp_K := P.add tempC P.c273 } with
        | error err =>
          simp [Go.http.newWriter, Go.http.ResponseWriter.finish,
            Go.http.ResponseWriter.WriteHeader, Go.http.StatusOK]
        | ok bytes =>
          simp [Go.http.newWriter, Go.http.ResponseWriter.finish, Go.http.ResponseWriter.Write,
            Go.http.ResponseWriter.WriteHeader, Go.http.StatusOK]

end ServiceB

namespace ServiceB

/-- The URL of the postal provider is never a URL of the weather provider: the
fifth character differs. -/
theorem viaCEPURL_ne_weatherURL (zip apiKey city : String) :
    viaCEPURL zip ≠ weatherURL apiKey city := by
  intro h
  have h1 : (viaCEPURL zip).data = 'h' :: 't' :: 't' :: 'p' :: 's' ::
      ("://viacep.com.br/ws/".data ++ zip.data ++ "/json/".data) := by
    simp [viaCEPURL, String.data_append]
  have h2 : (weatherURL apiKey city).data = 'h' :: 't' :: 't' :: 'p' :: ':' ::
      ("//api.weatherapi.com/v1/current.json?key=".data ++ apiKey.data ++ "&q=".data
        ++ city.data) := by
    simp [weatherURL, String.data_append]
  rw [h] at h1
  rw [h1] at h2
  simp at h2

end ServiceB

/-! ## C5, C6: the failure mapping of the resolver -/

/-- C5: for a valid `cep`, when the postal lookup fails in any of its ways
(URL refused, transport failure or timeout, status other than 200, undecodable
body, empty or missing `localidade`), the handler answers 404 with the payload
`{"error":"can not find zipcode"}` (ended by the line feed of `http.Error`),
the same for every variant; at most one outbound call is made, it goes to the
postal provider, and no call goes to the weather provider. -/
theorem C5_lookup_failure_answers_404 {F : Type} (P : ServiceB.Platform F)
    (r : Go.http.Request)
    (hzip : ServiceB.isValidZip (Go.url.Get (Go.url.Query r.URL) "cep") = true)
    (hfail : ServiceB.PostalLookupFails P
      (ServiceB.lookupRequest P (ServiceB.handlerContext P r)
        (Go.url.Get (Go.url.Query r.URL) "cep"))) :
    (ServiceB.serve P r).response.StatusCode = 404 ∧
    (ServiceB.serve P r).response.Body = "\x7b\"error\":\"can not find zipcode\"\x7d\n" ∧
    (ServiceB.serve P r).calls.length ≤ 1 ∧
    (∀ c ∈ (ServiceB.serve P r).calls,
      c.URL = ServiceB.viaCEPURL (Go.url.Get (Go.url.Query r.URL) "cep") ∧
      ∀ apiKey city, c.URL ≠ ServiceB.weatherURL apiKey city) := by
  obtain ⟨err, herr⟩ := (ServiceB.getCityByZip_error_iff P _ _).mpr hfail
  have hcalls := ServiceB.getCityByZip_calls P (ServiceB.handlerContext P r)
    (Go.url.Get (Go.url.Query r.URL) "cep")
  rcases ServiceB.resolver_serve_cases P r with h | h | h | h
  · rw [hzip] at h
    exact absurd h.1 (by decide)
  · obtain ⟨_, _, hc, hs, hb⟩ := h
    refine ⟨hs, hb, ?_, ?_⟩
    · rw [hc]
      rcases hcalls with h0 | h1
      · rw [h0]; simp
      · rw [h1]; simp
    · intro c hmem
      rw [hc] at hmem
      rcases hcalls with h0 | h1
      · rw [h0] at hmem; cases hmem
      · rw [h1] at hmem
        have hceq : c = ServiceB.lookupRequest P (ServiceB.handlerContext P r)
            (Go.url.Get (Go.url.Query r.URL) "cep") := by simpa using hmem
        subst hceq
        exact ⟨rfl, fun apiKey city => ServiceB.viaCEPURL_ne_weatherURL _ apiKey city⟩
  · obtain ⟨_, city, hcity, _⟩ := h
    rw [herr] at hcity
    cases hcity
  · obtain ⟨_, city, tempC, hcity, _⟩ := h
    rw [herr] at hcity
    cases hcity

/-- C5 at the scenario of the specification, `GET /weather?cep=00000000` with a
postal provider that answers 404, and at a provider that cannot be reached. -/
theorem C5_lookup_failure_answers_404_witness :
    ((ServiceB.serve (Scenario.resolver (some "key") (.ok (Scenario.answer 404 "")) (.error "unused"))
        (Scenario.getWeather "00000000")).response.StatusCode = 404 ∧
      (ServiceB.serve (Scenario.resolver (some "key") (.ok (Scenario.answer 404 "")) (.error "unused"))
        (Scenario.getWeather "00000000")).response.Body
          = "\x7b\"error\":\"can not find zipcode\"\x7d\n") ∧
    ((ServiceB.serve (Scenario.resolver (some "key") (.error "timeout") (.error "unused"))
        (Scenario.getWeather "01310930")).response.StatusCode = 404 ∧
      (ServiceB.serve (Scenario.resolver (some "key") (.error "timeout") (.error "unused"))
        (Scenario.getWeather "01310930")).response.Body
          = "\x7b\"error\":\"can not find zipcode\"\x7d\n") :=
  ⟨⟨(C5_lookup_failure_answers_404 _ _ (by decide)
      (Or.inr (Or.inr (Or.inl ⟨Scenario.answer 404 "", rfl, by decide⟩)))).1,
    (C5_lookup_failure_answers_404 _ _ (by decide)
      (Or.inr (Or.inr (Or.inl ⟨Scenario.answer 404 "", rfl, by decide⟩)))).2.1⟩,
   ⟨(C5_lookup_failure_answers_404 _ _ (by decide)
      (Or.inr (Or.inl ⟨"timeout", rfl⟩))).1,
    (C5_lookup_failure_answers_404 _ _ (by decide)
      (Or.inr (Or.inl ⟨"timeout", rfl⟩))).2.1⟩⟩

/-- C6: for a valid `cep` whose postal lookup returned a city, when the
temperature fetch fails in any of its ways (credential absent or empty, URL
refused, transport failure or timeout, status other than 200, undecodable
body), the handler answers 500 and the whole body is the payload
`{"error":"failed to fetch temperature"}` (ended by the line feed of
`http.Error`): no success body is written. -/
theorem C6_temperature_failure_answers_500 {F : Type} (P : ServiceB.Platform F)
    (r : Go.http.Request) (city : String)
    (hzip : ServiceB.isValidZip (Go.url.Get (Go.url.Query r.URL) "cep") = true)
    (hcity : (ServiceB.getCityByZip P (ServiceB.handlerContext P r)
      (Go.url.Get (Go.url.Query r.URL) "cep")).1 = .ok city)
    (hfail : ServiceB.TemperatureFetchFails P
      (ServiceB.temperatureRequest P (ServiceB.handlerContext P r) city)) :
    (ServiceB.serve P r).response.StatusCode = 500 ∧
    (ServiceB.serve P r).response.Body
      = "\x7b\"error\":\"failed to fetch temperature\"\x7d\n" := by
  obtain ⟨err, herr⟩ := (ServiceB.getTemperature_error_iff P _ _).mpr hfail
  rcases ServiceB.resolver_serve_cases P r with h | h | h | h
  · rw [hzip] at h
    exact absurd h.1 (by decide)
  · obtain ⟨_, ⟨e, he⟩, _⟩ := h
    rw [hcity] at he
    cases he
  · obtain ⟨_, city1, _, _, hs, hb⟩ := h
    exact ⟨hs, hb⟩
  · obtain ⟨_, city1, tempC, hc1, ht, _⟩ := h
    rw [hcity] at hc1
    cases hc1
    rw [herr] at ht
    cases ht

/-- C6 at the scenario of the specification (city resolved, the weather
provider times out) and with the credential unset. -/
theorem C6_temperature_failure_answers_500_witness :
    ((ServiceB.serve (Scenario.resolver (some "key")
          (.ok (Scenario.answer 200 "\x7b\"localidade\":\"São Paulo\"\x7d")) (.error "timeout"))
        (Scenario.getWeather "01310930")).response.StatusCode = 500 ∧
      (ServiceB.serve (Scenario.resolver (some "key")
          (.ok (Scenario.answer 200 "\x7b\"localidade\":\"São Paulo\"\x7d")) (.error "timeout"))
        (Scenario.getWeather "01310930")).response.Body
          = "\x7b\"error\":\"failed to fetch temperature\"\x7d\n") ∧
    ((ServiceB.serve (Scenario.resolver none
          (.ok (Scenario.answer 200 "\x7b\"localidade\":\"São Paulo\"\x7d")) (.error "unused"))
        (Scenario.getWeather "01310930")).response.StatusCode = 500 ∧
      (ServiceB.serve (Scenario.resolver none
          (.ok (Scenario.answer 200 "\x7b\"localidade\":\"São Paulo\"\x7d")) (.error "unused"))
        (Scenario.getWeather "01310930")).response.Body
          = "\x7b\"error\":\"failed to fetch temperature\"\x7d\n") :=
  ⟨C6_temperature_failure_answers_500 _ _ "São Paulo" (by decide) rfl
      (Or.inr (Or.inr (Or.inr (Or.inl ⟨"timeout", rfl⟩)))),
   C6_temperature_failure_answers_500 _ _ "São Paulo" (by decide) rfl (Or.inl rfl)⟩

/-! ## C4: the success response of the resolver -/

namespace ServiceB

/-- The success exit of `weatherHandler`: status 200, the JSON content type,
and as body whatever the encoder writes for the map built from the city and the
one temperature (nothing when the encoder returns an error). -/
theorem serve_success {F : Type} (P : Platform F) (r : Go.http.Request) (city : String)
    (tempC : F)
    (hzip : isValidZip (Go.url.Get (Go.url.Query r.URL) "cep") = true)
    (hcity : (getCityByZip P (handlerContext P r)
      (Go.url.Get (Go.url.Query r.URL) "cep")).1 = .ok city)
    (htemp : (getTemperature P (handlerContext P r) city).1 = .ok tempC) :
    (serve P r).response.StatusCode = 200 ∧
    (serve P r).response.Header = [("Content-Type", "application/json")] ∧
    (serve P r).response.Body =
      match P.Encode
          { city := city
            temp_C := tempC
            temp_F := P.add (P.mul tempC P.c1_8) P.c32
            temp_K := P.add tempC P.c273 } with
      | .ok bytes => bytes
      | .error _ => "" := by
  unfold handlerContext at hcity htemp
  unfold serve weatherHandler Outcome.response
  rcases hc : getCityByZip P (Go.trace.Start P.ids r.ctx "HandleWeather").1
    (Go.url.Get (Go.url.Query r.URL) "cep") with ⟨res, calls⟩
  rw [hc] at hcity
  simp only at hcity
  subst hcity
  rcases ht : getTemperature P (Go.trace.Start P.ids r.ctx "HandleWeather").1 city
    with ⟨res2, calls2⟩
  rw [ht] at htemp
  simp only at htemp
  subst htemp
  simp only [hzip, hc, ht, Bool.not_true, Bool.false_eq_true, if_false]
  cases P.Encode
      { city := city
        temp_C := tempC
        temp_F := P.add (P.mul tempC P.c1_8) P.c32
        temp_K := P.add tempC P.c273 } with
  | error err =>
    simp [Go.http.newWriter, Go.http.ResponseWriter.finish,
      Go.http.ResponseWriter.WriteHeader, Go.http.StatusOK, Go.http.Header.Set,
      Go.http.Header.Del]
  | ok bytes =>
    have h : ("" : String) ++ bytes = bytes := by
      apply String.ext
      simp
    simp [Go.http.newWriter, Go.http.ResponseWriter.finish, Go.http.ResponseWriter.Write,
      Go.http.ResponseWriter.WriteHeader, Go.http.StatusOK, Go.http.Header.Set,
      Go.http.Header.Del, h]

end ServiceB

/-- C4 as stated fails: the code `01310930` is valid, the postal provider gives
São Paulo and the weather provider gives `temp_c` = 1e308; `tempC*1.8` is beyond
the largest finite float64, the encoder returns an error for the value that is
not finite and writes nothing, and the handler answers 200 with an empty body,
which is no JSON object. -/
theorem C4_overflow_answers_200_with_empty_body :
    ServiceB.isValidZip
      (Go.url.Get (Go.url.Query (Scenario.getWeather "01310930").URL) "cep") = true ∧
    (ServiceB.getTemperature
      (Scenario.resolver (some "key")
        (.ok (Scenario.answer 200 "\x7b\"localidade\":\"São Paulo\"\x7d"))
        (.ok (Scenario.answer 200 "\x7b\"current\":\x7b\"temp_c\":1e308\x7d\x7d")))
      (ServiceB.handlerContext
        (Scenario.resolver (some "key")
          (.ok (Scenario.answer 200 "\x7b\"localidade\":\"São Paulo\"\x7d"))
          (.ok (Scenario.answer 200 "\x7b\"current\":\x7b\"temp_c\":1e308\x7d\x7d")))
        (Scenario.getWeather "01310930"))
      "São Paulo").1 = .ok (.finite (10 ^ 308)) ∧
    (ServiceB.serve
      (Scenario.resolver (some "key")
        (.ok (Scenario.answer 200 "\x7b\"localidade\":\"São Paulo\"\x7d"))
        (.ok (Scenario.answer 200 "\x7b\"current\":\x7b\"temp_c\":1e308\x7d\x7d")))
      (Scenario.getWeather "01310930")).response.StatusCode = 200 ∧
    (ServiceB.serve
      (Scenario.resolver (some "key")
        (.ok (Scenario.answer 200 "\x7b\"localidade\":\"São Paulo\"\x7d"))
        (.ok (Scenario.answer 200 "\x7b\"current\":\x7b\"temp_c\":1e308\x7d\x7d")))
      (Scenario.getWeather "01310930")).response.Body = "" := by
  have hzip : ServiceB.isValidZip
      (Go.url.Get (Go.url.Query (Scenario.getWeather "01310930").URL) "cep") = true := by
    decide
  have h := ServiceB.serve_success
    (Scenario.resolver (some "key")
      (.ok (Scenario.answer 200 "\x7b\"localidade\":\"São Paulo\"\x7d"))
      (.ok (Scenario.answer 200 "\x7b\"current\":\x7b\"temp_c\":1e308\x7d\x7d")))
    (Scenario.getWeather "01310930") "São Paulo" (.finite (10 ^ 308)) hzip rfl rfl
  have hover : ¬ (|(10 : ℚ) ^ 308 * (9 / 5)| ≤ Scenario.maxFloat64) := by
    unfold Scenario.maxFloat64
    rw [abs_of_pos (by positivity)]
    norm_num
  have henc : Scenario.encode
      { city := "São Paulo"
        temp_C := .finite (10 ^ 308)
        temp_F := Scenario.Float64.add
          (Scenario.Float64.mul (.finite (10 ^ 308)) (.finite (9 / 5))) (.finite 32)
        temp_K := Scenario.Float64.add (.finite (10 ^ 308)) (.finite 273) }
      = .error "json: unsupported value" := by
    simp only [Scenario.Float64.mul, Scenario.Float64.ofExact, hover, if_false,
      Scenario.Float64.add, Scenario.encode]
  have hbody := h.2.2
  simp only [Scenario.resolver] at hbody
  rw [henc] at hbody
  exact ⟨hzip, rfl, h.1, hbody⟩

/-- C4 amended: for a valid postal code for which `getCityByZip` returns a city
and `getTemperature` returns a Celsius value `c`, the handler answers with
status 200, and whenever the JSON encoder accepts the map it is given, the body
is the encoding of the map whose `city` is the resolved city, whose `temp_C` is
`c`, whose `temp_F` is the float64 result of `c*1.8` plus 32 and whose `temp_K`
is the float64 result of `c+273`, all three derived from the single `c`. -/
theorem C4_success_answers_200_with_encoded_map {F : Type} (P : ServiceB.Platform F)
    (r : Go.http.Request) (city : String) (c : F)
    (hzip : ServiceB.isValidZip (Go.url.Get (Go.url.Query r.URL) "cep") = true)
    (hcity : (ServiceB.getCityByZip P (ServiceB.handlerContext P r)
      (Go.url.Get (Go.url.Query r.URL) "cep")).1 = .ok city)
    (htemp : (ServiceB.getTemperature P (ServiceB.handlerContext P r) city).1 = .ok c) :
    (ServiceB.serve P r).response.StatusCode = 200 ∧
    ∀ bytes,
      P.Encode
          { city := city
            temp_C := c
            temp_F := P.add (P.mul c P.c1_8) P.c32
            temp_K := P.add c P.c273 } = .ok bytes →
        (ServiceB.serve P r).response.Body = bytes := by
  have h := ServiceB.serve_success P r city c hzip hcity htemp
  refine ⟨h.1, ?_⟩
  intro bytes henc
  rw [h.2.2, henc]

/-- C4 amended, at the example `c = 25`: São Paulo is resolved, the weather
provider reports 25, and the body is the map with 25, 77 and 298. -/
theorem C4_success_answers_200_with_encoded_map_witness :
    (ServiceB.serve
      (Scenario.resolver (some "key")
        (.ok (Scenario.answer 200 "\x7b\"localidade\":\"São Paulo\"\x7d"))
        (.ok (Scenario.answer 200 "\x7b\"current\":\x7b\"temp_c\":25\x7d\x7d")))
      (Scenario.getWeather "01310930")).response.StatusCode = 200 ∧
    (ServiceB.serve
      (Scenario.resolver (some "key")
        (.ok (Scenario.answer 200 "\x7b\"localidade\":\"São Paulo\"\x7d"))
        (.ok (Scenario.answer 200 "\x7b\"current\":\x7b\"temp_c\":25\x7d\x7d")))
      (Scenario.getWeather "01310930")).response.Body
      = "\x7b\"city\":\"São Paulo\",\"temp_C\":25,\"temp_F\":77,\"temp_K\":298\x7d\n" := by
  have hF : Scenario.Float64.add
      (Scenario.Float64.mul (.finite 25) (.finite (9 / 5))) (.finite 32) = .finite 77 := by
    have h1 : |(25 : ℚ) * (9 / 5)| ≤ Scenario.maxFloat64 := by
      unfold Scenario.maxFloat64
      rw [abs_of_pos (by norm_num)]
      norm_num
    have h2 : |(25 : ℚ) * (9 / 5) + 32| ≤ Scenario.maxFloat64 := by
      unfold Scenario.maxFloat64
      rw [abs_of_pos (by norm_num)]
      norm_num
    simp only [Scenario.Float64.mul, Scenario.Float64.ofExact, h1, if_true,
      Scenario.Float64.add, h2]
    norm_num
  have hK : Scenario.Float64.add (.finite 25) (.finite 273) = .finite 298 := by
    have h1 : |(25 : ℚ) + 273| ≤ Scenario.maxFloat64 := by
      unfold Scenario.maxFloat64
      rw [abs_of_pos (by norm_num)]
      norm_num
    simp only [Scenario.Float64.add, Scenario.Float64.ofExact, h1, if_true]
    norm_num
  have henc : Scenario.encode
      { city := "São Paulo"
        temp_C := .finite 25
        temp_F := Scenario.Float64.add
          (Scenario.Float64.mul (.finite 25) (.finite (9 / 5))) (.finite 32)
        temp_K := Scenario.Float64.add (.finite 25) (.finite 273) }
      = .ok (Scenario.saoPaulo ++ "\n") := by
    rw [hF, hK]
    simp [Scenario.encode]
  have h := C4_success_answers_200_with_encoded_map
    (Scenario.resolver (some "key")
      (.ok (Scenario.answer 200 "\x7b\"localidade\":\"São Paulo\"\x7d"))
      (.ok (Scenario.answer 200 "\x7b\"current\":\x7b\"temp_c\":25\x7d\x7d")))
    (Scenario.getWeather "01310930") "São Paulo" (.finite 25) (by decide) rfl rfl
  exact ⟨h.1, h.2 _ henc⟩

/-! ## Where a handler can panic -/

namespace Go.http

theorem panicked_Error_newWriter (msg : String) (code : Nat)
    (hcode : 200 ≤ code ∧ code ≤ 999) :
    (Error newWriter msg code).panicked = none := by
  have h1 : ¬ (code < 100 ∨ 999 < code) := by omega
  have h2 : ¬ (code ≤ 199 ∧ code ≠ 101) := by omega
  simp [Error, newWriter, ResponseWriter.Write, ResponseWriter.WriteHeader, h1, h2]

theorem panicked_Copy_newWriter (code : Nat) (body : Go.io.Reader)
    (hcode : 100 ≤ code ∧ code ≤ 999) :
    (Go.io.Copy (newWriter.WriteHeader code) body).panicked = none := by
  have h1 : ¬ (code < 100 ∨ 999 < code) := by omega
  unfold Go.io.Copy
  by_cases hinfo : code ≤ 199 ∧ code ≠ 101
  · split <;>
      simp [newWriter, ResponseWriter.Write, ResponseWriter.WriteHeader, h1, hinfo, StatusOK]
  · split <;>
      simp [newWriter, ResponseWriter.Write, ResponseWriter.WriteHeader, h1, hinfo]

end Go.http

namespace ServiceA

/-- The gateway handler panics only in the relay, on a status code of the
downstream response that `WriteHeader` refuses. -/
theorem aborted_only_on_refused_status (P : Platform) (r : Go.http.Request)
    (h : (serve P r).aborted ≠ none) :
    ∃ req2 resp, req2 ∈ (serve P r).calls ∧ P.Do req2 = .ok resp ∧
      (resp.StatusCode < 100 ∨ 999 < resp.StatusCode) := by
  unfold serve requestWeatherHandler Outcome.aborted at *
  by_cases hm : r.Method = "POST"
  · cases hd : P.Decode r.Body with
    | error err =>
      simp [hm, hd, Go.http.MethodPost, Go.http.panicked_Error_newWriter,
        Go.http.StatusBadRequest] at h
    | ok req =>
      cases hz : isValidZip req.CEP with
      | false =>
        simp [hm, hd, hz, Go.http.MethodPost, Go.http.panicked_Error_newWriter,
          Go.http.StatusUnprocessableEntity] at h
      | true =>
        by_cases hu : P.Getenv "SERVICE_B_URL" = ""
        · simp [hm, hd, hz, hu, Go.http.MethodPost, Go.http.panicked_Error_newWriter,
            Go.http.StatusInternalServerError] at h
        · cases hv : P.validURL (P.Getenv "SERVICE_B_URL" ++ "/weather?cep=" ++ req.CEP) with
          | false =>
            simp [hm, hd, hz, hu, hv, Go.http.MethodPost, Go.http.panicked_Error_newWriter,
              Go.http.StatusInternalServerError, Go.http.NewRequestWithContext] at h
          | true =>
            cases hdo : P.Do
                { Method := "GET"
                  URL := P.Getenv "SERVICE_B_URL" ++ "/weather?cep=" ++ req.CEP
                  Header := []
                  Body := ""
                  ctx := (Go.trace.Start P.ids r.ctx "HandleRequestWeather").1 } with
            | error err =>
              simp [hm, hd, hz, hu, hv, hdo, Go.http.MethodPost,
                Go.http.panicked_Error_newWriter, Go.http.StatusInternalServerError,
                Go.http.NewRequestWithContext] at h
            | ok resp =>
              simp only [hm, hd, hz, hu, hv, hdo, Go.http.MethodPost,
                Go.http.NewRequestWithContext, ne_eq, not_true_eq_false, if_false,
                Bool.not_true, Bool.false_eq_true, if_true] at h ⊢
              by_cases hcode : 100 ≤ resp.StatusCode ∧ resp.StatusCode ≤ 999
              · exact absurd (Go.http.panicked_Copy_newWriter _ _ hcode) h
              · exact ⟨_, resp, by simp, hdo, by omega⟩
  · simp [hm, Go.http.MethodPost, Go.http.panicked_Error_newWriter,
      Go.http.StatusMethodNotAllowed] at h

end ServiceA

namespace ServiceB

/-- The resolver handler never panics: every status it writes is a constant
that `WriteHeader` accepts. -/
theorem never_panics {F : Type} (P : Platform F) (r : Go.http.Request) :
    (serve P r).w.panicked = none := by
  unfold serve weatherHandler
  simp only []
  split
  · exact Go.http.panicked_Error_newWriter _ _ (by decide)
  · split
    · exact Go.http.panicked_Error_newWriter _ _ (by decide)
    · split
      · exact Go.http.panicked_Error_newWriter _ _ (by decide)
      · split
        · rfl
        · simp [Go.http.newWriter, Go.http.ResponseWriter.Write,
            Go.http.ResponseWriter.WriteHeader, Go.http.StatusOK]

end ServiceB

/-! ## C8: the shape of the failure bodies -/

/-- C8 as stated fails: a GET to the gateway is answered by the gateway itself
(no outbound call) with status 405 and the body `Only POST method allowed`,
which is plain text and not a JSON object. -/
theorem C8_gateway_405_body_is_plain_text :
    ¬ ServiceA.Relays (Scenario.gateway (some "http://service-b:8080") (.error "unused"))
        { Method := "GET", URL := "/request-weather" } ∧
    (ServiceA.serve (Scenario.gateway (some "http://service-b:8080") (.error "unused"))
        { Method := "GET", URL := "/request-weather" }).response.StatusCode = 405 ∧
    (ServiceA.serve (Scenario.gateway (some "http://service-b:8080") (.error "unused"))
        { Method := "GET", URL := "/request-weather" }).response.Body
      = "Only POST method allowed\n" ∧
    Spec.isErrorObject
      (ServiceA.serve (Scenario.gateway (some "http://service-b:8080") (.error "unused"))
        { Method := "GET", URL := "/request-weather" }).response.Body = false := by
  refine ⟨?_, by decide, by decide, by decide⟩
  rintro ⟨req2, resp, hmem, _⟩
  have hcalls : (ServiceA.serve (Scenario.gateway (some "http://service-b:8080")
      (.error "unused")) { Method := "GET", URL := "/request-weather" }).calls = [] := by
    decide
  rw [hcalls] at hmem
  cases hmem

/-- C8 amended: every response of the resolver with a status other than 200 has
status 422, 404 or 500 and a body that is a JSON object with the single member
`error` holding a string; a response the gateway produces itself (nothing
relayed) is one of six fixed pairs of status and text line, and its body is
such a JSON object exactly when the status is 422. -/
theorem C8_error_bodies {F : Type} (PA : ServiceA.Platform) (PB : ServiceB.Platform F)
    (ra rb : Go.http.Request) :
    ((ServiceB.serve PB rb).response.StatusCode ≠ 200 →
      ((ServiceB.serve PB rb).response.StatusCode = 422 ∨
        (ServiceB.serve PB rb).response.StatusCode = 404 ∨
        (ServiceB.serve PB rb).response.StatusCode = 500) ∧
      Spec.isErrorObject (ServiceB.serve PB rb).response.Body = true) ∧
    (¬ ServiceA.Relays PA ra →
      ((ServiceA.serve PA ra).response.StatusCode, (ServiceA.serve PA ra).response.Body) ∈
        [(405, "Only POST method allowed\n"),
         (400, "Invalid request body\n"),
         (422, "\x7b\"error\":\"invalid zipcode\"\x7d\n"),
         (500, "Service B URL not configured\n"),
         (500, "Failed to create request\n"),
         (500, "Failed to contact Service B\n")] ∧
      (Spec.isErrorObject (ServiceA.serve PA ra).response.Body = true ↔
        (ServiceA.serve PA ra).response.StatusCode = 422)) := by
  constructor
  · intro hne
    rcases ServiceB.resolver_serve_cases PB rb with h | h | h | h
    · obtain ⟨_, _, hs, hb⟩ := h
      rw [hs, hb]
      exact ⟨Or.inl rfl, by decide⟩
    · obtain ⟨_, _, _, hs, hb⟩ := h
      rw [hs, hb]
      exact ⟨Or.inr (Or.inl rfl), by decide⟩
    · obtain ⟨_, city, _, _, hs, hb⟩ := h
      rw [hs, hb]
      exact ⟨Or.inr (Or.inr rfl), by decide⟩
    · obtain ⟨_, city, tempC, _, _, hs⟩ := h
      exact absurd hs hne
  · intro hrel
    rcases ServiceA.gateway_serve_cases PA ra with h | h | h | h | h | h
    · obtain ⟨_, _, hs, hb⟩ := h
      rw [hs, hb]
      exact ⟨by simp, by decide⟩
    · obtain ⟨_, _, _, hs, hb⟩ := h
      rw [hs, hb]
      exact ⟨by simp, by decide⟩
    · obtain ⟨_, _, _, hs, hb⟩ := h
      rw [hs, hb]
      exact ⟨by simp, by decide⟩
    · obtain ⟨_, _, _, _, hs, hb⟩ := h
      rw [hs, hb]
      exact ⟨by simp, by decide⟩
    · obtain ⟨_, _, _, _, hs, hb⟩ := h
      rw [hs, hb]
      exact ⟨by simp, by decide⟩
    · obtain ⟨_, _, req, req2, _, _, _, _, _, hcalls, hdo⟩ := h
      rcases hdo with ⟨err, _, hs, hb⟩ | ⟨resp, hr, _⟩
      · rw [hs, hb]
        exact ⟨by simp, by decide⟩
      · exact absurd ⟨req2, resp, by rw [hcalls]; simp, hr⟩ hrel

/-- C8 amended, at the resolver answering 404 for `cep=00000000`. -/
theorem C8_error_bodies_witness :
    Spec.isErrorObject
      (ServiceB.serve (Scenario.resolver (some "key") (.ok (Scenario.answer 404 "")) (.error "unused"))
        (Scenario.getWeather "00000000")).response.Body = true :=
  ((C8_error_bodies (Scenario.gateway none (.error "unused")) _
      (Scenario.post "") _).1 (by decide)).2

/-! ## C7: trace context on the outbound request -/

/-- C7 fails on the code. For the POST `{"cep":"01310930"}` with the resolver
at `http://service-b:8080`: the gateway span has trace id `0xA1`; the one
outbound request has an empty header map, so what the resolver receives has
none of the headers of the installed propagator (`Traceparent`, `Tracestate`,
`Baggage`); and the span `weatherHandler` starts for it has the trace id `0xB1`
that the resolver drew itself. In general no outbound request of the gateway
carries a header, and the span of the resolver for a delivered request is a
root span of its own generator. -/
theorem C7_outbound_request_carries_no_trace_context :
    (ServiceA.serve (Scenario.gateway (some "http://service-b:8080") (.error "unused"))
        (Scenario.post "\x7b\"cep\":\"01310930\"\x7d")).calls
      = [Scenario.forwarded "http://service-b:8080/weather?cep=01310930"] ∧
    (ServiceA.serve (Scenario.gateway (some "http://service-b:8080") (.error "unused"))
        (Scenario.post "\x7b\"cep\":\"01310930\"\x7d")).span.TraceID = 0xA1 ∧
    (Scenario.forwarded "http://service-b:8080/weather?cep=01310930").Header = [] ∧
    (∀ key ∈ Go.trace.propagatorFields,
      Go.http.Header.Get (Go.http.deliver
        (Scenario.forwarded "http://service-b:8080/weather?cep=01310930")).Header key = "") ∧
    (ServiceB.serve (Scenario.resolver (some "key") (.error "unused") (.error "unused"))
        (Go.http.deliver (Scenario.forwarded "http://service-b:8080/weather?cep=01310930"))
      ).span.TraceID = 0xB1 ∧
    (∀ (P : ServiceA.Platform) (r c : Go.http.Request),
      c ∈ (ServiceA.serve P r).calls →
        c.Header = [] ∧
        ∀ key ∈ Go.trace.propagatorFields,
          Go.http.Header.Get (Go.http.deliver c).Header key = "") ∧
    (∀ (F : Type) (P : ServiceB.Platform F) (c : Go.http.Request),
      (ServiceB.serve P (Go.http.deliver c)).span.TraceID
        = (P.ids.NewIDs "HandleWeather").1) := by
  refine ⟨by decide, by decide, rfl, by decide, by decide, ?_, ?_⟩
  · intro P r c hmem
    rcases ServiceA.gateway_serve_cases P r with h | h | h | h | h | h
    · rw [h.2.1] at hmem; cases hmem
    · rw [h.2.2.1] at hmem; cases hmem
    · rw [h.2.2.1] at hmem; cases hmem
    · rw [h.2.2.2.1] at hmem; cases hmem
    · rw [h.2.2.2.1] at hmem; cases hmem
    · obtain ⟨_, _, req, req2, _, _, _, _, hh, hcalls, _⟩ := h
      rw [hcalls] at hmem
      have hc : c = req2 := by simpa using hmem
      rw [hc]
      refine ⟨hh, ?_⟩
      have hdel : (Go.http.deliver req2).Header
          = [("User-Agent", "Go-http-client/1.1"), ("Accept-Encoding", "gzip")] := by
        unfold Go.http.deliver
        rw [hh]
        rfl
      rw [hdel]
      decide
  · intro F P c
    have hspan : ∀ r : Go.http.Request, (ServiceB.serve P r).span
        = (Go.trace.Start P.ids r.ctx "HandleWeather").2 := by
      intro r
      unfold ServiceB.serve ServiceB.weatherHandler
      simp only []
      split
      · rfl
      · split
        · rfl
        · split
          · rfl
          · split <;> rfl
    rw [hspan]
    rfl

/-! ## C10: the code the resolver reads from a forwarded request -/

namespace Go.url

theorem Cut_of_not_mem (sep : Char) (a : List Char) (h : sep ∉ a) :
    Cut sep a = (a, []) := by
  induction a with
  | nil => rfl
  | cons c cs ih =>
    have hc : c ≠ sep := fun e => h (by simp [e])
    have hcs : sep ∉ cs := fun e => h (by simp [e])
    simp [Cut, hc, ih hcs]

theorem Cut_append_sep (sep : Char) (a b : List Char) (h : sep ∉ a) :
    Cut sep (a ++ sep :: b) = (a, b) := by
  induction a with
  | nil => simp [Cut]
  | cons c cs ih =>
    have hc : c ≠ sep := fun e => h (by simp [e])
    have hcs : sep ∉ cs := fun e => h (by simp [e])
    simp [Cut, hc, ih hcs]

theorem Split_of_not_mem (sep : Char) (a : List Char) (h : sep ∉ a) :
    Split sep a = [a] := by
  induction a with
  | nil => rfl
  | cons c cs ih =>
    have hc : c ≠ sep := fun e => h (by simp [e])
    have hcs : sep ∉ cs := fun e => h (by simp [e])
    simp [Split, hc, ih hcs]

theorem QueryUnescape_plain (a : List Char) (h : ∀ c ∈ a, c ≠ '%' ∧ c ≠ '+') :
    QueryUnescape a = some a := by
  induction a with
  | nil => rfl
  | cons c cs ih =>
    have hc := h c (by simp)
    have hcs := ih (fun d hd => h d (by simp [hd]))
    unfold QueryUnescape
    split
    · rename_i heq; cases heq
    · rename_i heq
      cases heq
      exact absurd rfl hc.1
    · rename_i heq
      cases heq
      exact absurd rfl hc.1
    · rename_i heq
      cases heq
      exact absurd rfl hc.2
    · rename_i heq
      cases heq
      simp [hcs]

/-- A digit is none of the characters the URL and query parsers act on. -/
theorem digit_not_special (c : Char) (h : '0' ≤ c ∧ c ≤ '9') :
    c ≠ '#' ∧ c ≠ '?' ∧ c ≠ '&' ∧ c ≠ ';' ∧ c ≠ '=' ∧ c ≠ '%' ∧ c ≠ '+' := by
  have h0 : 0x30 ≤ c.toNat := h.1
  have h9 : c.toNat ≤ 0x39 := h.2
  refine ⟨?_, ?_, ?_, ?_, ?_, ?_, ?_⟩ <;>
    (intro e; rw [e] at h0 h9; revert h0 h9; decide)

/-- The query of the URL the gateway builds, read back by the resolver: when
the base has no question mark and no hash and the code is all digits, the value
under `cep` is the code. -/
theorem Get_cep_of_forwarded (base cep : String)
    (hbase : ∀ ch ∈ base.toList, ch ≠ '?' ∧ ch ≠ '#')
    (hcep : ∀ ch ∈ cep.toList, '0' ≤ ch ∧ ch ≤ '9') :
    Get (Query (RequestURI (base ++ "/weather?cep=" ++ cep))) "cep" = cep := by
  have hd := fun ch hch => digit_not_special ch (hcep ch hch)
  have hlist : (base ++ "/weather?cep=" ++ cep).toList
      = (base.toList ++ "/weather".toList) ++ '?' :: ("cep=".toList ++ cep.toList) := by
    simp [String.toList, String.data_append]
  have hnohash : '#' ∉ (base ++ "/weather?cep=" ++ cep).toList := by
    rw [hlist]
    intro hmem
    simp only [List.mem_append, List.mem_cons] at hmem
    rcases hmem with (h | h) | h | h | h
    · exact (hbase _ h).2 rfl
    · revert h; decide
    · revert h; decide
    · revert h; decide
    · exact (hd _ h).1 rfl
  have huri : RequestURI (base ++ "/weather?cep=" ++ cep) = base ++ "/weather?cep=" ++ cep := by
    unfold RequestURI
    rw [Cut_of_not_mem _ _ hnohash]
    rfl
  have hq : '?' ∉ base.toList ++ "/weather".toList := by
    intro hmem
    simp only [List.mem_append] at hmem
    rcases hmem with h | h
    · exact (hbase _ h).1 rfl
    · revert h; decide
  have hraw : RawQuery (base ++ "/weather?cep=" ++ cep) = String.mk ("cep=".toList ++ cep.toList) := by
    unfold RawQuery
    rw [hlist, Cut_append_sep _ _ _ hq]
  have hamp : '&' ∉ "cep=".toList ++ cep.toList := by
    intro hmem
    simp only [List.mem_append] at hmem
    rcases hmem with h | h
    · revert h; decide
    · exact (hd _ h).2.2.1 rfl
  have hsemi : ';' ∉ "cep=".toList ++ cep.toList := by
    intro hmem
    simp only [List.mem_append] at hmem
    rcases hmem with h | h
    · revert h; decide
    · exact (hd _ h).2.2.2.1 rfl
  have hcut : Cut '=' ("cep=".toList ++ cep.toList) = ("cep".toList, cep.toList) := by
    have : "cep=".toList ++ cep.toList = "cep".toList ++ '=' :: cep.toList := by
      simp [String.toList]
    rw [this]
    exact Cut_append_sep _ _ _ (by decide)
  have hval : QueryUnescape cep.toList = some cep.toList :=
    QueryUnescape_plain _ (fun c hc => ⟨(hd c hc).2.2.2.2.2.1, (hd c hc).2.2.2.2.2.2⟩)
  have hkey : QueryUnescape "cep".toList = some "cep".toList := by decide
  have hpair : parsePair ("cep=".toList ++ cep.toList) = some ("cep", cep) := by
    unfold parsePair
    have h1 : ("cep=".toList ++ cep.toList).contains ';' = false := by
      simpa using hsemi
    have h2 : ("cep=".toList ++ cep.toList).isEmpty = false := by
      simp [String.toList]
    rw [h1, h2, hcut]
    simp only [hkey, hval]
    simp [String.toList]
  unfold Query ParseQuery
  rw [huri, hraw]
  show Get (List.filterMap parsePair (Split '&' ("cep=".toList ++ cep.toList))) "cep" = cep
  rw [Split_of_not_mem _ _ hamp]
  have hvalues : List.filterMap parsePair ["cep=".toList ++ cep.toList] = [("cep", cep)] := by
    simp only [List.filterMap_cons, hpair, List.filterMap_nil]
  rw [hvalues]
  simp [Get, List.lookup]

end Go.url

/-- C10 as stated fails: with `SERVICE_B_URL` set to
`http://service-b:8080/weather?x=` the gateway validates `01310930` and calls
`http://service-b:8080/weather?x=/weather?cep=01310930`; the resolver reads the
empty string under `cep` and answers 422. -/
theorem C10_query_in_service_b_url_loses_cep :
    (ServiceA.serve (Scenario.gateway (some "http://service-b:8080/weather?x=")
        (.error "unused")) (Scenario.post "\x7b\"cep\":\"01310930\"\x7d")).calls
      = [Scenario.forwarded "http://service-b:8080/weather?x=/weather?cep=01310930"] ∧
    ServiceA.isValidZip "01310930" = true ∧
    Go.url.Get (Go.url.Query (Go.http.deliver
      (Scenario.forwarded "http://service-b:8080/weather?x=/weather?cep=01310930")).URL)
      "cep" = "" ∧
    (ServiceB.serve (Scenario.resolver (some "key") (.error "unused") (.error "unused"))
      (Go.http.deliver
        (Scenario.forwarded "http://service-b:8080/weather?x=/weather?cep=01310930"))
      ).response.StatusCode = 422 ∧
    (ServiceB.serve (Scenario.resolver (some "key") (.error "unused") (.error "unused"))
      (Go.http.deliver
        (Scenario.forwarded "http://service-b:8080/weather?x=/weather?cep=01310930"))
      ).response.Body = "\x7b\"error\":\"invalid zipcode\"\x7d\n" := by
  refine ⟨by decide, by decide, by decide, by decide, by decide⟩

/-- C10 amended: the two validators agree on every string; every outbound call
of the gateway is a GET to `SERVICE_B_URL + "/weather?cep=" + cep` where `cep`
is the decoded code and is exactly 8 ASCII digits; and when `SERVICE_B_URL`
contains neither `?` nor `#`, the resolver reads that same `cep` from the
delivered request and does not answer it with 422. -/
theorem C10_forwarded_cep_is_the_validated_cep (PA : ServiceA.Platform)
    (r c : Go.http.Request) (hcall : c ∈ (ServiceA.serve PA r).calls) :
    (∀ s, ServiceA.isValidZip s = ServiceB.isValidZip s) ∧
    ∃ cep, PA.Decode r.Body = .ok { CEP := cep } ∧
      c.Method = "GET" ∧
      c.URL = PA.Getenv "SERVICE_B_URL" ++ "/weather?cep=" ++ cep ∧
      cep.length = 8 ∧ (∀ ch ∈ cep.toList, '0' ≤ ch ∧ ch ≤ '9') ∧
      ((∀ ch ∈ (PA.Getenv "SERVICE_B_URL").toList, ch ≠ '?' ∧ ch ≠ '#') →
        Go.url.Get (Go.url.Query (Go.http.deliver c).URL) "cep" = cep ∧
        ∀ (F : Type) (PB : ServiceB.Platform F),
          (ServiceB.serve PB (Go.http.deliver c)).response.StatusCode ≠ 422) := by
  refine ⟨fun _ => rfl, ?_⟩
  rcases ServiceA.gateway_serve_cases PA r with h | h | h | h | h | h
  · rw [h.2.1] at hcall; cases hcall
  · rw [h.2.2.1] at hcall; cases hcall
  · rw [h.2.2.1] at hcall; cases hcall
  · rw [h.2.2.2.1] at hcall; cases hcall
  · rw [h.2.2.2.1] at hcall; cases hcall
  · obtain ⟨_, _, req, req2, hdec, hvalid, hmethod, hurl, _, hcalls, _⟩ := h
    rw [hcalls] at hcall
    have hc : c = req2 := by simpa using hcall
    subst hc
    have hdigits := (Go.regexp.matchString_zipPattern req.CEP).mp hvalid
    refine ⟨req.CEP, hdec, hmethod, hurl, hdigits.1, hdigits.2, ?_⟩
    intro hbase
    have hget : Go.url.Get (Go.url.Query (Go.http.deliver c).URL) "cep" = req.CEP := by
      show Go.url.Get (Go.url.Query (Go.url.RequestURI c.URL)) "cep" = req.CEP
      rw [hurl]
      exact Go.url.Get_cep_of_forwarded _ _ hbase hdigits.2
    refine ⟨hget, ?_⟩
    intro F PB
    have hvalidB : ServiceB.isValidZip
        (Go.url.Get (Go.url.Query (Go.http.deliver c).URL) "cep") = true := by
      rw [hget]
      exact hvalid
    rcases ServiceB.resolver_serve_cases PB (Go.http.deliver c) with h | h | h | h
    · rw [hvalidB] at h
      exact absurd h.1 (by decide)
    · rw [h.2.2.2.1]; decide
    · obtain ⟨_, city, _, _, hs, _⟩ := h
      rw [hs]; decide
    · obtain ⟨_, city, tempC, _, _, hs⟩ := h
      rw [hs]; decide

/-- C10 amended, at the POST `{"cep":"01310930"}` with the resolver at
`http://service-b:8080`. -/
theorem C10_forwarded_cep_is_the_validated_cep_witness :
    Go.url.Get (Go.url.Query (Go.http.deliver
      (Scenario.forwarded "http://service-b:8080/weather?cep=01310930")).URL) "cep"
      = "01310930" ∧
    (ServiceB.serve (Scenario.resolver (some "key") (.error "timeout") (.error "unused"))
      (Go.http.deliver (Scenario.forwarded "http://service-b:8080/weather?cep=01310930"))
      ).response.StatusCode ≠ 422 := by
  obtain ⟨_, cep, hdec, _, _, _, _, hrest⟩ :=
    C10_forwarded_cep_is_the_validated_cep
      (Scenario.gateway (some "http://service-b:8080") (.error "unused"))
      (Scenario.post "\x7b\"cep\":\"01310930\"\x7d")
      (Scenario.forwarded "http://service-b:8080/weather?cep=01310930") (by decide)
  have hcep : cep = "01310930" := by
    have h1 : (Scenario.gateway (some "http://service-b:8080") (.error "unused")).Decode
        (Scenario.post "\x7b\"cep\":\"01310930\"\x7d").Body = .ok { CEP := "01310930" } := rfl
    rw [h1] at hdec
    cases hdec
    rfl
  subst hcep
  have h := hrest (by decide)
  exact ⟨h.1, h.2 _ _⟩
